import Mathlib

/-!
Verification of the resume-analyzer core engine (src/utils.py, src/industry_data.py,
src/app.py) against its natural-language specification.

Modelling conventions:
* Python strings are embedded as `Str := List Char`; `S` converts a Lean string
  literal to this representation.
* Python floats are embedded as exact rationals (`ℚ`); Python `round` (banker's
  rounding, round-half-to-even) is embedded as `pyRound`.
* Python sets are embedded as first-occurrence-deduplicated lists (`dedupS`);
  `sorted` is embedded as an insertion sort under the code-point lexicographic
  order, which agrees with Python `sorted` on duplicate-free lists.  The
  iteration order of a Python `set` is unspecified, so wherever the source
  materialises a set into a list without sorting (the `missing` list of
  `calculate_match`) the embedding fixes the first-occurrence order; no theorem
  below depends on that order.
* Python regular expressions are embedded by a small backtracking matcher
  (`reM`) over an explicit syntax tree, with `re.search` / `re.findall`
  semantics (leftmost start position, ordered alternation, greedy/lazy
  repetition).  The matcher is fuelled; the fuel is large enough for every
  concrete evaluation performed here, and no theorem depends on the fuel.
-/

namespace ResumeAnalyzer

/-- Python strings are modelled as lists of characters. -/
abbrev Str := List Char

/-- Convert a Lean string literal into the `Str` embedding. -/
def S : String → Str := String.toList

/-- The apostrophe character (written via its code point). -/
def apos : Char := Char.ofNat 39

/-- Python `\s` / `str.strip()` whitespace: space, tab, newline, carriage
return, vertical tab, form feed (ASCII fragment of Python's definition). -/
def isPySpace (c : Char) : Bool :=
  c = ' ' || c = '\t' || c = '\n' || c = '\r' || c = Char.ofNat 11 || c = Char.ofNat 12

/-- Character-wise lower-casing, embedding Python `str.lower()` (ASCII fragment). -/
def toLowerS (s : Str) : Str := s.map Char.toLower

/-- Boolean string-prefix test (Python `str.startswith`). -/
def isPrefixB : Str → Str → Bool
  | [], _ => true
  | _ :: _, [] => false
  | a :: as, b :: bs => decide (a = b) && isPrefixB as bs

/-- Boolean substring test (Python `needle in haystack`). -/
def isSubstrB (n : Str) : Str → Bool
  | [] => isPrefixB n []
  | h :: t => isPrefixB n (h :: t) || isSubstrB n t

/-- Boolean string-suffix test (Python `str.endswith`). -/
def isSuffixB (n h : Str) : Bool := isPrefixB n.reverse h.reverse

/-- Python `str.strip()`: drop whitespace on both ends. -/
def stripS (s : Str) : Str :=
  ((s.dropWhile isPySpace).reverse.dropWhile isPySpace).reverse

/-- Helper for `collapseWs`: the flag records whether the previous character
was whitespace (already emitted as a single space). -/
def collapseAux : Bool → Str → Str
  | _, [] => []
  | prevWs, c :: rest =>
    if isPySpace c then
      if prevWs then collapseAux true rest else ' ' :: collapseAux true rest
    else c :: collapseAux false rest

/-- Python `re.sub(r'\s+', ' ', s)`: collapse each whitespace run to one space. -/
def collapseWs (s : Str) : Str := collapseAux false s

/-- Helper for `splitWs`, accumulating the current word in reverse. -/
def splitWsAux : Str → Str → List Str
  | cur, [] => if cur = [] then [] else [cur.reverse]
  | cur, c :: rest =>
    if isPySpace c then
      if cur = [] then splitWsAux [] rest else cur.reverse :: splitWsAux [] rest
    else splitWsAux (c :: cur) rest

/-- Python `str.split()` with no argument: split on whitespace runs, no empties. -/
def splitWs (s : Str) : List Str := splitWsAux [] s

theorem isPrefixB_length {n h : Str} (hp : isPrefixB n h = true) : n.length ≤ h.length := by
  induction n generalizing h with
  | nil => simp
  | cons a as ih =>
    cases h with
    | nil => simp [isPrefixB] at hp
    | cons b bs =>
      simp only [isPrefixB, Bool.and_eq_true, decide_eq_true_eq] at hp
      simpa [List.length_cons] using Nat.succ_le_succ (ih hp.2)

/-- Helper for `splitOnStr`, accumulating the current chunk in reverse.  The
fuel (initialised to the string length) only bounds recursion depth: each
step consumes at least one character, so it never runs out. -/
def splitOnAux (sep : Str) : Nat → Str → Str → List Str
  | _, acc, [] => [acc.reverse]
  | 0, acc, s => [acc.reverse ++ s]
  | Nat.succ fuel, acc, c :: rest =>
    if isPrefixB sep (c :: rest) then
      acc.reverse :: splitOnAux sep fuel [] ((c :: rest).drop sep.length)
    else
      splitOnAux sep fuel (c :: acc) rest

/-- Python `str.split(sep)` for non-empty `sep`: split at each non-overlapping
occurrence, scanning left to right. -/
def splitOnStr (sep s : Str) : List Str :=
  if sep = [] then [s] else splitOnAux sep s.length [] s

/-- Index of the first occurrence of `pat` in a string (Python `str.find`,
returning `none` instead of `-1`). -/
def findSubIdx (pat : Str) : Str → Option Nat
  | [] => if isPrefixB pat [] then some 0 else none
  | h :: t =>
    if isPrefixB pat (h :: t) then some 0
    else (findSubIdx pat t).map (· + 1)

/-- Helper for `countOccur` on a non-empty needle; the fuel (initialised to
the string length) only bounds recursion depth, each step consuming at least
one character. -/
def countOccurAux (n : Str) : Nat → Str → Nat
  | _, [] => 0
  | 0, _ => 0
  | Nat.succ fuel, c :: t =>
    if isPrefixB n (c :: t) then
      1 + countOccurAux n fuel ((c :: t).drop n.length)
    else
      countOccurAux n fuel t

/-- Python `str.count`: non-overlapping occurrences, scanning left to right
(`h.count('')` is `len(h) + 1`). -/
def countOccur (n : Str) (h : Str) : Nat :=
  if n = [] then h.length + 1 else countOccurAux n h.length h

/-- First-occurrence deduplication; embeds materialising a Python `set`. -/
def dedupS : List Str → List Str
  | [] => []
  | x :: xs => x :: (dedupS xs).filter (fun y => decide (y ≠ x))

/-- Python string comparison: lexicographic by code point, prefix-is-smaller. -/
def lexLe : Str → Str → Bool
  | [], _ => true
  | _ :: _, [] => false
  | a :: as, b :: bs => if a = b then lexLe as bs else decide (a < b)

/-- Insertion step of the sort. -/
def insertS (x : Str) : List Str → List Str
  | [] => [x]
  | y :: ys => if lexLe x y then x :: y :: ys else y :: insertS x ys

/-- Embeds Python `sorted` on a duplicate-free list of strings (a strict total
order has a unique sorted arrangement, so insertion sort agrees with it). -/
def sortStr (l : List Str) : List Str := l.foldr insertS []

/-- Decimal digits of a natural number (Python `str(n)` for `n ≥ 0`). -/
def natToStr (n : Nat) : Str := Nat.toDigits 10 n

/-- Python `str` of an integer. -/
def intToStr (z : Int) : Str :=
  if z < 0 then '-' :: natToStr z.natAbs else natToStr z.natAbs

/-- Python `int(s)` on the digit strings produced by the regexes of
`extract_experience` (optional surrounding whitespace, optional sign, digits);
`none` embeds the raised `ValueError`. -/
def parsePyInt (s : Str) : Option Int :=
  let t := stripS s
  let (neg, digits) :=
    match t with
    | '-' :: rest => (true, rest)
    | '+' :: rest => (false, rest)
    | _ => (false, t)
  if digits = [] then none
  else if digits.all Char.isDigit then
    let v : Nat := digits.foldl (fun acc c => acc * 10 + (c.toNat - 48)) 0
    some (if neg then -(v : Int) else (v : Int))
  else none

/-- Helper for `titleCaseS`; the flag records whether the previous character
was alphabetic. -/
def titleAux : Bool → Str → Str
  | _, [] => []
  | prev, c :: rest =>
    (if c.isAlpha then (if prev then c.toLower else c.toUpper) else c)
      :: titleAux c.isAlpha rest

/-- Python `str.title()` (ASCII fragment): first letter of each alphabetic run
upper-cased, the rest lower-cased. -/
def titleCaseS (s : Str) : Str := titleAux false s

/-- Python `', '.join(l)`. -/
def joinCommaSep (l : List Str) : Str := List.intercalate (S ", ") l

/-! ## Python rounding

Python 3 `round` uses round-half-to-even on the exact value; the floats of the
source are embedded as exact rationals, so `pyRound` is round-half-to-even on
`ℚ`. -/

/-- Python `round(q)` : round-half-to-even. -/
def pyRound (q : ℚ) : ℤ :=
  if Int.fract q < 1/2 then ⌊q⌋
  else if 1/2 < Int.fract q then ⌊q⌋ + 1
  else if ⌊q⌋ % 2 = 0 then ⌊q⌋ else ⌊q⌋ + 1

/-- Python `round(q, 0)` (as a rational). -/
def round0 (q : ℚ) : ℚ := (pyRound q : ℚ)

/-- Python `round(q, 1)`. -/
def round1 (q : ℚ) : ℚ := (pyRound (q * 10) : ℚ) / 10

/-- Python `round(q, 2)`. -/
def round2 (q : ℚ) : ℚ := (pyRound (q * 100) : ℚ) / 100

theorem pyRound_ge_floor (q : ℚ) : ⌊q⌋ ≤ pyRound q := by
  unfold pyRound
  split
  · exact le_refl _
  · split
    · omega
    · split <;> omega

theorem pyRound_le_floor_add_one (q : ℚ) : pyRound q ≤ ⌊q⌋ + 1 := by
  unfold pyRound
  split
  · omega
  · split
    · omega
    · split <;> omega

theorem pyRound_ge_of_le {a : ℤ} {q : ℚ} (h : (a : ℚ) ≤ q) : a ≤ pyRound q :=
  le_trans (Int.le_floor.mpr h) (pyRound_ge_floor q)

theorem pyRound_le_of_le {a : ℤ} {q : ℚ} (h : q ≤ (a : ℚ)) : pyRound q ≤ a := by
  have h1 : pyRound q ≤ ⌊q⌋ + 1 := pyRound_le_floor_add_one q
  have h2 : ⌊q⌋ ≤ a := by
    have := Int.floor_le_floor h
    simpa using this
  rcases lt_or_eq_of_le h2 with hlt | heq
  · omega
  · -- floor q = a and q ≤ a force fract q = 0, so pyRound q = floor q = a
    have hq : q = (a : ℚ) := by
      have := Int.floor_le q
      rw [heq] at this
      exact le_antisymm h this
    subst hq
    unfold pyRound
    rw [Int.fract_intCast]
    norm_num

theorem pyRound_sub_le (q : ℚ) : q - 1/2 ≤ (pyRound q : ℚ) := by
  unfold pyRound
  have hf : q - ⌊q⌋ = Int.fract q := (Int.self_sub_floor q).symm ▸ rfl
  split
  · have : Int.fract q < 1/2 := by assumption
    have := Int.self_sub_floor q
    push_cast
    nlinarith [Int.self_sub_floor q]
  · split
    · push_cast
      nlinarith [Int.fract_lt_one q, Int.self_sub_floor q]
    · have h1 : ¬ Int.fract q < 1/2 := by assumption
      have h2 : ¬ 1/2 < Int.fract q := by assumption
      have heq : Int.fract q = 1/2 := le_antisymm (not_lt.mp h2) (not_lt.mp h1)
      have := Int.self_sub_floor q
      split <;> (push_cast; nlinarith)

theorem pyRound_le_add (q : ℚ) : (pyRound q : ℚ) ≤ q + 1/2 := by
  unfold pyRound
  split
  · nlinarith [Int.self_sub_floor q, Int.fract_nonneg q]
  · split
    · push_cast
      nlinarith [Int.self_sub_floor q]
    · have h1 : ¬ Int.fract q < 1/2 := by assumption
      have h2 : ¬ 1/2 < Int.fract q := by assumption
      have heq : Int.fract q = 1/2 := le_antisymm (not_lt.mp h2) (not_lt.mp h1)
      split
      · nlinarith [Int.self_sub_floor q]
      · push_cast
        nlinarith [Int.self_sub_floor q]

/-! ## Regular-expression matcher

A small backtracking matcher covering exactly the constructs used by the
source's regexes: literal strings (case-sensitive `lstr`, case-insensitive
`istr`), single-character classes, ordered alternation, greedy and lazy
bounded/unbounded repetition, one capture group, word boundary, and the
`^`/`$` anchors (no `re.MULTILINE` is used in the source). -/

/-- Regular-expression syntax tree. -/
inductive RE where
  | eps : RE
  | lit : Char → RE
  | cls : (Char → Bool) → RE
  | lstr : Str → RE
  | istr : Str → RE
  | seq : RE → RE → RE
  | alt : RE → RE → RE
  | rep : RE → Nat → Option Nat → Bool → RE
  | grp : RE → RE
  | wordB : RE
  | bos : RE
  | eos : RE

/-- Python `\w` (ASCII fragment): letters, digits, underscore. -/
def isWordC (c : Char) : Bool := c.isAlphanum || c = '_'

/-- Is the character at position `i` (if any) a word character? -/
def wAt (s : Str) (i : Nat) : Bool :=
  match s.drop i with
  | [] => false
  | c :: _ => isWordC c

/-- Python `\b`: word character on exactly one side of position `i`. -/
def wordBoundaryAt (s : Str) (i : Nat) : Bool :=
  xor (if i = 0 then false else wAt s (i - 1)) (wAt s i)

/-- CPS backtracking matcher.  `reM s fuel r i g k` tries to match `r` at
position `i` of `s` with current group-1 capture `g`, calling the continuation
`k` with the end position and capture on success; `none` signals failure (and
triggers backtracking in the caller).  The fuel only bounds recursion depth. -/
def reM (s : Str) : Nat → RE → Nat → Option (Nat × Nat) →
    (Nat → Option (Nat × Nat) → Option (Nat × Option (Nat × Nat))) →
    Option (Nat × Option (Nat × Nat))
  | 0, _, _, _, _ => none
  | Nat.succ fuel, re, i, g, k =>
    match re with
    | .eps => k i g
    | .lit c =>
      match s.drop i with
      | [] => none
      | d :: _ => if d = c then k (i + 1) g else none
    | .cls p =>
      match s.drop i with
      | [] => none
      | d :: _ => if p d then k (i + 1) g else none
    | .lstr l => if isPrefixB l (s.drop i) then k (i + l.length) g else none
    | .istr l =>
      let seg := (s.drop i).take l.length
      if seg.length = l.length && decide (toLowerS seg = toLowerS l) then
        k (i + l.length) g
      else none
    | .seq a b => reM s fuel a i g (fun j g2 => reM s fuel b j g2 k)
    | .alt a b =>
      match reM s fuel a i g k with
      | some r => some r
      | none => reM s fuel b i g k
    | .grp r => reM s fuel r i g (fun j _ => k j (some (i, j)))
    | .rep r lo hi lz =>
      if lo > 0 then
        reM s fuel r i g (fun j g2 =>
          reM s fuel (.rep r (lo - 1) (hi.map (· - 1)) lz) j g2 k)
      else
        match hi with
        | some 0 => k i g
        | _ =>
          if lz then
            match k i g with
            | some res => some res
            | none =>
              reM s fuel r i g (fun j g2 =>
                if j = i then none
                else reM s fuel (.rep r 0 (hi.map (· - 1)) lz) j g2 k)
          else
            match reM s fuel r i g (fun j g2 =>
                if j = i then none
                else reM s fuel (.rep r 0 (hi.map (· - 1)) lz) j g2 k) with
            | some res => some res
            | none => k i g
    | .wordB => if wordBoundaryAt s i then k i g else none
    | .bos => if i = 0 then k i g else none
    | .eos => if i = s.length then k i g else none

/-- Fuel used for all concrete regex evaluations; ample for the short strings
evaluated in this development (no theorem depends on the fuel value). -/
def RE_FUEL : Nat := 100000

/-- `re.search` scan: try each start position from `i` leftward-first.
Returns `(start, end, group1)` of the first match. -/
def reSearchAux (r : RE) (s : Str) : Nat → Nat → Option (Nat × Nat × Option (Nat × Nat))
  | 0, _ => none
  | Nat.succ tries, i =>
    match reM s RE_FUEL r i none (fun j g => some (j, g)) with
    | some (j, g) => some (i, j, g)
    | none => reSearchAux r s tries (i + 1)

/-- Python `re.search(r, s)`. -/
def reSearch (r : RE) (s : Str) : Option (Nat × Nat × Option (Nat × Nat)) :=
  reSearchAux r s (s.length + 1) 0

/-- One item of `re.findall`: the group-1 text when the pattern has a capture
group, otherwise the whole match (Python's rule for 0/1-group patterns). -/
def findallItem (s : Str) (i j : Nat) : Option (Nat × Nat) → Str
  | some (gs, ge) => (s.drop gs).take (ge - gs)
  | none => (s.drop i).take (j - i)

/-- `re.findall` scan: repeated leftmost search, resuming after each match
(advancing by one position on an empty match). -/
def reFindAllAux (r : RE) (s : Str) : Nat → Nat → List Str
  | 0, _ => []
  | Nat.succ tries, i =>
    if i > s.length then []
    else
      match reM s RE_FUEL r i none (fun j g => some (j, g)) with
      | some (j, g) =>
        findallItem s i j g :: reFindAllAux r s tries (if i < j then j else i + 1)
      | none => reFindAllAux r s tries (i + 1)

/-- Python `re.findall(r, s)`. -/
def reFindAll (r : RE) (s : Str) : List Str := reFindAllAux r s (s.length + 2) 0

/-- Sequence a list of regexes. -/
def seqL (l : List RE) : RE := l.foldr RE.seq RE.eps

/-- Ordered alternation of a non-empty list of regexes. -/
def altL : List RE → RE
  | [] => .cls (fun _ => false)
  | [r] => r
  | r :: rest => .alt r (altL rest)

/-- Class `[a-z]` under `re.IGNORECASE` (the flag makes it match `A-Z` too). -/
def clsAZi : RE := .cls (fun c => 'a' ≤ c.toLower && c.toLower ≤ 'z')

/-- Class `[a-z\s]` under `re.IGNORECASE`. -/
def clsAZSi : RE := .cls (fun c => ('a' ≤ c.toLower && c.toLower ≤ 'z') || isPySpace c)

/-- Class `\d`. -/
def clsD : RE := .cls Char.isDigit

/-- Class `\s`. -/
def clsWS : RE := .cls isPySpace

/-- `\s*` (greedy). -/
def wsStar : RE := .rep clsWS 0 none false

/-- `\s+` (greedy). -/
def wsPlus : RE := .rep clsWS 1 none false

/-- A case-insensitive literal character (`s?` under `re.IGNORECASE`). -/
def iLit (c : Char) : RE := .cls (fun d => d.toLower = c)

/-! ## Static configuration tables (industry_data.py, utils.py) -/

/-- Keys of TECHNICAL_SKILLS (industry_data.py); only the skill names are
consulted by the functions verified here. -/
def TECHNICAL_SKILLS_KEYS : List Str :=
  [S ("Python"), S ("JavaScript"), S ("Java"), S ("TypeScript"), S ("SQL"), S ("C++"), S ("C#"), S ("Go"), S ("Rust"), S ("React"), S ("Vue"), S ("Angular"), S ("HTML"), S ("CSS"), S ("Tailwind CSS"), S ("Next.js"), S ("Node.js"), S ("Django"), S ("Flask"), S ("Spring Boot"), S ("FastAPI"), S ("MongoDB"), S ("PostgreSQL"), S ("MySQL"), S ("Redis"), S ("AWS"), S ("Azure"), S ("Google Cloud"), S ("Docker"), S ("Kubernetes"), S ("Terraform"), S ("Ansible"), S ("Jenkins"), S ("GitLab"), S ("GitHub"), S ("Machine Learning"), S ("Deep Learning"), S ("TensorFlow"), S ("PyTorch"), S ("LLM"), S ("Generative AI"), S ("Computer Vision"), S ("NLP"), S ("Pandas"), S ("NumPy"), S ("Spark"), S ("Hadoop"), S ("Airflow"), S ("Kafka"), S ("dbt"), S ("Git"), S ("REST API"), S ("GraphQL"), S ("Microservices"), S ("System Design"), S ("Swift"), S ("Kotlin"), S ("Agile"), S ("iOS"), S ("Android")]

/-- Keys of SOFT_SKILLS (industry_data.py). -/
def SOFT_SKILLS_KEYS : List Str :=
  [S ("Communication"), S ("Leadership"), S ("Problem Solving"), S ("Teamwork"), S ("Project Management"), S ("Critical Thinking"), S ("Adaptability"), S ("Creativity"), S ("Time Management"), S ("Mentoring"), S ("Negotiation"), S ("Strategic Thinking")]

/-- Keys of CREATIVE_SKILLS (industry_data.py). -/
def CREATIVE_SKILLS_KEYS : List Str :=
  [S ("Premiere Pro"), S ("After Effects"), S ("DaVinci Resolve"), S ("Final Cut Pro"), S ("Video Editing"), S ("Motion Graphics"), S ("Color Grading"), S ("Photoshop"), S ("Illustrator"), S ("Figma"), S ("Adobe XD"), S ("Canva"), S ("Graphic Design"), S ("UI Design"), S ("UX Design"), S ("Content Writing"), S ("Copywriting"), S ("SEO"), S ("Google Analytics"), S ("Social Media Marketing"), S ("Digital Marketing"), S ("Email Marketing"), S ("Video Production"), S ("Cinematography"), S ("Sound Design"), S ("3D Modeling"), S ("Blender"), S ("Documentation"), S ("Technical Writing")]

/-- SKILL_ALIASES (industry_data.py), in source order. -/
def SKILL_ALIASES : List (Str × List Str) :=
  [(S ("python"), [S ("py"), S ("python3"), S ("python 3")]),
   (S ("javascript"), [S ("js"), S ("node"), S ("nodejs")]),
   (S ("typescript"), [S ("ts")]),
   (S ("c++"), [S ("cpp"), S ("c plus plus")]),
   (S ("c#"), [S ("csharp"), S ("c sharp")]),
   (S ("sql"), [S ("mysql"), S ("postgresql"), S ("sqlite")]),
   (S ("react"), [S ("reactjs"), S ("react.js")]),
   (S ("aws"), [S ("amazon web services"), S ("amazon aws")]),
   (S ("gcp"), [S ("google cloud"), S ("google cloud platform")]),
   (S ("ml"), [S ("machine learning"), S ("ml/ai")]),
   (S ("nlp"), [S ("natural language processing")]),
   (S ("cicd"), [S ("ci/cd"), S ("continuous integration"), S ("continuous deployment")]),
   (S ("rest"), [S ("rest api"), S ("restful")]),
   (S ("oop"), [S ("object oriented programming")])]

/-- SKILL_MULTIPLIERS (industry_data.py): per-skill salary premium. -/
def SKILL_MULTIPLIERS : List (Str × ℚ) :=
  [(S ("machine learning"), 12/100),
   (S ("generative ai"), 15/100),
   (S ("llm"), 13/100),
   (S ("kubernetes"), 10/100),
   (S ("aws"), 10/100),
   (S ("azure"), 9/100),
   (S ("python"), 8/100),
   (S ("docker"), 7/100),
   (S ("go"), 8/100),
   (S ("rust"), 8/100),
   (S ("system design"), 10/100),
   (S ("architecture"), 9/100),
   (S ("leadership"), 7/100),
   (S ("javascript"), 5/100),
   (S ("java"), 5/100),
   (S ("sql"), 4/100),
   (S ("react"), 6/100),
   (S ("terraform"), 6/100),
   (S ("communication"), 3/100),
   (S ("project management"), 4/100)]

/-- One salary band of INDUSTRY_SALARY_DATA. -/
structure SalaryBand where
  lo : ℚ
  av : ℚ
  hi : ℚ
deriving DecidableEq

/-- INDUSTRY_SALARY_DATA (industry_data.py): industry -> level -> band
(the per-location multipliers of the source are never read by the engine). -/
def INDUSTRY_SALARY_DATA : List (Str × List (Str × SalaryBand)) :=
  [(S ("Tech"),
     [(S ("Entry Level"), ⟨65, 85, 110⟩),
      (S ("Junior"), ⟨95, 130, 170⟩),
      (S ("Mid-Level"), ⟨140, 180, 240⟩),
      (S ("Senior"), ⟨190, 260, 380⟩),
      (S ("Staff+"), ⟨300, 400, 600⟩)]),
   (S ("Finance"),
     [(S ("Entry Level"), ⟨75, 95, 120⟩),
      (S ("Junior"), ⟨120, 160, 210⟩),
      (S ("Mid-Level"), ⟨170, 220, 300⟩),
      (S ("Senior"), ⟨250, 350, 500⟩)]),
   (S ("Healthcare Tech"),
     [(S ("Entry Level"), ⟨60, 78, 98⟩),
      (S ("Junior"), ⟨85, 115, 150⟩),
      (S ("Mid-Level"), ⟨120, 160, 210⟩),
      (S ("Senior"), ⟨170, 230, 320⟩)]),
   (S ("Startup"),
     [(S ("Entry Level"), ⟨70, 90, 120⟩),
      (S ("Junior"), ⟨100, 135, 180⟩),
      (S ("Mid-Level"), ⟨150, 190, 260⟩),
      (S ("Senior"), ⟨210, 290, 400⟩)])]

/-- requirement_patterns (extract_job_requirements, utils.py), source order. -/
def requirement_patterns : List Str :=
  [S ("required skills:"), S ("must have:"), S ("should have:"), S ("preferred skills:"), S ("looking for:"), S ("we need:"), S ("seeking:"), S ("responsibilities:"), S ("qualifications:"), S ("required:"), S ("preferred:"), S ("must:"), S ("skills needed:"), S ("technical skills:"), S ("you should have:"), S ("you will need:"), S ("requirement"), S ("key skills:"), S ("tools:")]

/-- skill_indicators (extract_job_requirements, utils.py), source order. -/
def skill_indicators : List Str :=
  [S ("experience with"), S ("knowledge of"), S ("fluent in"), S ("skilled in"), S ("proficiency"), S ("familiar with"), S ("expertise in"), S ("work with"), S ("proficient in")]

/-- role_defaults (extract_job_requirements, utils.py): per-role default
skill lists, merged for recognized roles with sparse descriptions. -/
def role_defaults : List (Str × List Str) :=
  [(S ("Backend Developer"), [S ("Python"), S ("Django"), S ("REST API"), S ("PostgreSQL"), S ("AWS"), S ("SQL"), S ("Git")]),
   (S ("Frontend Developer"), [S ("React"), S ("JavaScript"), S ("HTML"), S ("CSS"), S ("TypeScript"), S ("REST API"), S ("Git")]),
   (S ("Full Stack Developer"), [S ("React"), S ("Node.js"), S ("Python"), S ("SQL"), S ("AWS"), S ("Git"), S ("REST API"), S ("HTML"), S ("CSS")]),
   (S ("DevOps Engineer"), [S ("Docker"), S ("Kubernetes"), S ("AWS"), S ("Jenkins"), S ("Terraform"), S ("Linux"), S ("Git"), S ("CI/CD")]),
   (S ("Cloud Architect"), [S ("AWS"), S ("Azure"), S ("Google Cloud"), S ("Terraform"), S ("System Design"), S ("Security"), S ("Docker")]),
   (S ("Data Scientist"), [S ("Python"), S ("Machine Learning"), S ("SQL"), S ("TensorFlow"), S ("Pandas"), S ("Statistics"), S ("NumPy"), S ("Data Analysis")]),
   (S ("Data Engineer"), [S ("Python"), S ("SQL"), S ("Spark"), S ("Hadoop"), S ("AWS"), S ("ETL"), S ("Data Pipelines")]),
   (S ("Data Analyst"), [S ("SQL"), S ("Excel"), S ("Tableau"), S ("Python"), S ("Power BI"), S ("Data Analysis"), S ("Statistics")]),
   (S ("QA Engineer"), [S ("TestNG"), S ("Selenium"), S ("Automation"), S ("Java"), S ("Testing"), S ("Git"), S ("CI/CD")]),
   (S ("Security Engineer"), [S ("Linux"), S ("Cybersecurity"), S ("AWS"), S ("Encryption"), S ("Penetration Testing"), S ("Security")]),
   (S ("Machine Learning Engineer"), [S ("Python"), S ("Machine Learning"), S ("Deep Learning"), S ("TensorFlow"), S ("PyTorch"), S ("SQL"), S ("Git")]),
   (S ("ML Engineer"), [S ("Python"), S ("Machine Learning"), S ("Deep Learning"), S ("TensorFlow"), S ("PyTorch"), S ("SQL")]),
   (S ("Software Engineer"), [S ("Python"), S ("JavaScript"), S ("SQL"), S ("Git"), S ("REST API"), S ("Problem Solving")]),
   (S ("Video Editor"), [S ("Premiere Pro"), S ("After Effects"), S ("Video Editing"), S ("Motion Graphics"), S ("DaVinci Resolve"), S ("Color Grading")]),
   (S ("Graphic Designer"), [S ("Photoshop"), S ("Illustrator"), S ("Graphic Design"), S ("Figma"), S ("Canva"), S ("UI Design")]),
   (S ("Content Writer"), [S ("Content Writing"), S ("Copywriting"), S ("SEO"), S ("Communication")]),
   (S ("Digital Marketing"), [S ("Digital Marketing"), S ("SEO"), S ("Social Media Marketing"), S ("Content Writing"), S ("Google Analytics"), S ("Email Marketing")]),
   (S ("Social Media Manager"), [S ("Social Media Marketing"), S ("Content Writing"), S ("Communication"), S ("Canva")]),
   (S ("Product Manager"), [S ("Project Management"), S ("Communication"), S ("Problem Solving"), S ("SQL"), S ("Data Analysis"), S ("Agile")]),
   (S ("Project Manager"), [S ("Project Management"), S ("Communication"), S ("Leadership"), S ("Agile"), S ("Problem Solving")]),
   (S ("Business Analyst"), [S ("SQL"), S ("Excel"), S ("Data Analysis"), S ("Communication"), S ("Problem Solving")]),
   (S ("Scrum Master"), [S ("Agile"), S ("Project Management"), S ("Communication"), S ("Leadership")]),
   (S ("iOS Developer"), [S ("Swift"), S ("iOS"), S ("Git"), S ("REST API"), S ("Problem Solving")]),
   (S ("Android Developer"), [S ("Kotlin"), S ("Java"), S ("Git"), S ("REST API"), S ("Problem Solving")]),
   (S (".NET Developer"), [S ("C#"), S ("SQL"), S ("REST API"), S ("Git"), S ("Problem Solving")]),
   (S ("Technical Writer"), [S ("Content Writing"), S ("Communication"), S ("Documentation"), S ("Technical Writing")]),
   (S ("UX Designer"), [S ("UX Design"), S ("Figma"), S ("User Research"), S ("Wireframing"), S ("Prototyping")]),
   (S ("UI Designer"), [S ("UI Design"), S ("Figma"), S ("Photoshop"), S ("Illustrator"), S ("Design Systems")]),
   (S ("Motion Graphics Designer"), [S ("After Effects"), S ("Motion Graphics"), S ("Premiere Pro"), S ("Cinematography")]),
   (S ("Video Producer"), [S ("Video Production"), S ("Premiere Pro"), S ("Video Editing"), S ("Project Management")])]

/-- exact_phrases_non_tech (detect_job_role, utils.py), source order;
each phrase is stripped before the containment test, as in the source. -/
def exact_phrases_non_tech : List (Str × List Str) :=
  [(S ("Digital Marketing"), [S ("digital marketing"), S ("digital marketer"), S ("digital markiting"), S ("digital markting"), S ("marketing specialist"), S ("performance marketing"), S ("growth marketing"), S ("online marketing"), S ("digital marketing manager"), S ("dm manager"), S ("seo specialist"), S ("ppc specialist"), S ("we are hiring for digital marketing"), S ("job for digital marketing"), S ("role: digital marketing")]),
   (S ("Video Editor"), [S ("video editor"), S ("video editing"), S ("video edit"), S ("we are hiring video editor"), S ("looking for video editor")]),
   (S ("Graphic Designer"), [S ("graphic designer"), S ("graphic design"), S ("visual designer")]),
   (S ("Content Writer"), [S ("content writer"), S ("content writing"), S ("content creator"), S ("copywriter")]),
   (S ("Social Media Manager"), [S ("social media manager"), S ("social media specialist"), S ("smm "), S ("social media marketing"), S ("social media coordinator"), S ("community manager")]),
   (S ("UX Designer"), [S ("ux designer"), S ("ux design"), S ("user experience designer")]),
   (S ("UI Designer"), [S ("ui designer"), S ("ui design"), S ("user interface designer")]),
   (S ("Motion Graphics Designer"), [S ("motion graphics"), S ("motion designer"), S ("motion graphics designer")]),
   (S ("Video Producer"), [S ("video producer"), S ("video production")])]

/-- exact_phrases_tech (detect_job_role, utils.py), source order. -/
def exact_phrases_tech : List (Str × List Str) :=
  [(S ("Product Manager"), [S ("product manager"), S ("product management"), S ("pm role"), S ("technical product manager")]),
   (S ("Project Manager"), [S ("project manager"), S ("project management"), S ("it project manager")]),
   (S ("Business Analyst"), [S ("business analyst"), S ("ba role"), S ("business analysis")]),
   (S ("Scrum Master"), [S ("scrum master"), S ("agile coach"), S ("scrum master role")]),
   (S ("DevOps Engineer"), [S ("devops engineer"), S ("dev ops engineer")]),
   (S ("Cloud Architect"), [S ("cloud architect"), S ("solutions architect")]),
   (S ("Data Scientist"), [S ("data scientist")]),
   (S ("Data Engineer"), [S ("data engineer")]),
   (S ("Data Analyst"), [S ("data analyst"), S ("bi analyst"), S ("business intelligence analyst")]),
   (S ("Backend Developer"), [S ("backend developer"), S ("back-end developer"), S ("backend engineer")]),
   (S ("Frontend Developer"), [S ("frontend developer"), S ("front-end developer"), S ("frontend engineer")]),
   (S ("Full Stack Developer"), [S ("full stack developer"), S ("fullstack developer"), S ("full stack engineer")]),
   (S ("iOS Developer"), [S ("ios developer"), S ("ios engineer"), S ("swift developer"), S ("apple ios")]),
   (S ("Android Developer"), [S ("android developer"), S ("android engineer"), S ("kotlin developer"), S ("android app")]),
   (S (".NET Developer"), [S (".net developer"), S (".net engineer"), S ("c# developer"), S ("asp.net developer")]),
   (S ("QA Engineer"), [S ("qa engineer"), S ("quality assurance engineer"), S ("test engineer")]),
   (S ("Security Engineer"), [S ("security engineer"), S ("cybersecurity engineer")]),
   (S ("Machine Learning Engineer"), [S ("machine learning engineer"), S ("ml engineer"), S ("ai engineer")]),
   (S ("Technical Writer"), [S ("technical writer"), S ("technical writing"), S ("documentation writer")]),
   (S ("Software Engineer"), [S ("software engineer"), S ("software developer"), S ("application developer")])]

/-- role_patterns (detect_job_role, utils.py): keyword lists per role,
source order (which also resolves ties in the score maximisation). -/
def role_patterns : List (Str × List Str) :=
  [(S ("DevOps Engineer"), [S ("devops"), S ("dev-ops"), S ("infrastructure engineer"), S ("site reliability engineer"), S ("sre "), S ("kubernetes"), S ("docker"), S ("terraform"), S ("ci/cd"), S ("cicd"), S ("deployment engineer"), S ("linux engineer")]),
   (S ("Cloud Architect"), [S ("cloud architect"), S ("cloud infrastructure"), S ("aws architect"), S ("azure architect"), S ("gcp architect"), S ("cloud solutions")]),
   (S ("Backend Developer"), [S ("backend"), S ("back-end"), S ("api development"), S ("server-side"), S ("server side"), S ("django developer"), S ("flask developer"), S ("nodejs developer"), S ("node.js developer"), S ("spring developer"), S ("fastapi developer"), S ("rest api"), S ("microservices")]),
   (S ("Frontend Developer"), [S ("frontend"), S ("front-end"), S ("react developer"), S ("vue developer"), S ("angular developer"), S ("javascript developer"), S ("typescript developer"), S ("web developer"), S ("frontend engineer")]),
   (S ("Full Stack Developer"), [S ("full stack"), S ("fullstack"), S ("full-stack"), S ("full stack engineer")]),
   (S ("Machine Learning Engineer"), [S ("machine learning"), S ("ml engineer"), S ("deep learning"), S ("neural network"), S ("tensorflow"), S ("pytorch"), S ("nlp engineer"), S ("computer vision"), S ("ai/ml")]),
   (S ("Data Scientist"), [S ("data scientist"), S ("statistical analysis"), S ("predictive model"), S ("machine learning model")]),
   (S ("Data Engineer"), [S ("data engineer"), S ("etl engineer"), S ("data pipeline"), S ("big data"), S ("spark"), S ("hadoop"), S ("data warehouse"), S ("data architecture")]),
   (S ("Data Analyst"), [S ("data analyst"), S ("bi analyst"), S ("business intelligence"), S ("tableau"), S ("power bi"), S ("analytics engineer"), S ("sql analyst")]),
   (S ("QA Engineer"), [S ("qa engineer"), S ("quality assurance"), S ("test engineer"), S ("test automation"), S ("automated tester"), S ("selenium"), S ("quality engineer")]),
   (S ("Security Engineer"), [S ("security engineer"), S ("cybersecurity"), S ("infosec"), S ("penetration tester"), S ("security architect")]),
   (S ("Product Manager"), [S ("product roadmap"), S ("product strategy"), S ("product owner"), S ("prioritization"), S ("user stories")]),
   (S ("Project Manager"), [S ("project management"), S ("pm certification"), S ("pmp"), S ("stakeholder management"), S ("project delivery")])]

/-- Association-list lookup (Python `dict.get` with `none` for a miss). -/
def lookupL {α : Type} (l : List (Str × α)) (k : Str) : Option α :=
  (l.find? (fun p => decide (p.1 = k))).map (fun p => p.2)

/-! ## Normalization, alias resolution, skill extraction (utils.py) -/

/-- normalize_skill: `skill.lower().strip()`. -/
def normalize_skill (skill : Str) : Str := stripS (toLowerS skill)

/-- expand_skill_with_aliases: the canonical key plus its aliases, checking
first whether the normalized skill is itself a key of SKILL_ALIASES and then
whether it occurs in some alias list (first match wins, as in the source). -/
def expand_skill_with_aliases (skill : Str) : List Str :=
  let sn := normalize_skill skill
  match lookupL SKILL_ALIASES sn with
  | some aliases => sn :: aliases
  | none =>
    match SKILL_ALIASES.find? (fun p => decide (sn ∈ p.2)) with
    | some p => p.1 :: p.2
    | none => [sn]

/-- The alias branch of the detection loop of extract_skills.  The three
Python branches all add the same skill, so for membership they amount to the
disjunction below (in source order):
`alias != skill_norm and f' {alias} ' in f' {text_lower} '`,
`f' {alias}' in text_lower or text_lower.startswith(alias)`,
`text_lower.endswith(f' {alias}')`. -/
def matchesAliasBranch (textLower sn al : Str) : Bool :=
  (decide (al ≠ sn) && isSubstrB (' ' :: (al ++ [' '])) (' ' :: (textLower ++ [' '])))
  || isSubstrB (' ' :: al) textLower
  || isPrefixB al textLower
  || isSuffixB (' ' :: al) textLower

/-- Does extract_skills detect this candidate skill in the lower-cased text?
The direct branch is plain substring containment of the normalized skill;
the alias branch is `matchesAliasBranch`. -/
def skillHit (textLower skill : Str) : Bool :=
  let sn := normalize_skill skill
  isSubstrB sn textLower
  || (expand_skill_with_aliases sn).any (fun al => matchesAliasBranch textLower sn al)

/-- extract_skills: empty result for empty input; candidate list defaults to
the technical and soft skill vocabularies; result is the sorted set of
detected candidates (original casing).  Non-string inputs (rejected by the
source's isinstance guard) are outside the `Str` embedding. -/
def extract_skills (text : Str) (skills : Option (List Str)) : List Str :=
  if text = [] then []
  else
    let all_skills :=
      match skills with
      | none => TECHNICAL_SKILLS_KEYS ++ SOFT_SKILLS_KEYS
      | some l => l
    let text_lower := toLowerS text
    sortStr (dedupS (all_skills.filter (fun sk => skillHit text_lower sk)))

/-! ## Match scoring (utils.py) -/

/-- calculate_match on an explicit requirement list (the string branch of the
source extracts skills first and is not exercised by the claims).  The
`missing` list materialises a Python set; its order is fixed here to
first-occurrence order (the source's set iteration order is unspecified). -/
def calculate_match (resume_skills job_requirements : List Str) :
    ℚ × List Str × List Str :=
  if job_requirements = [] then (0, [], [])
  else
    let resumeSet := dedupS (resume_skills.map normalize_skill)
    let requiredSet := dedupS (job_requirements.map normalize_skill)
    let matched := requiredSet.filter (fun s => decide (s ∈ resumeSet))
    let missing := requiredSet.filter (fun s => decide (s ∉ resumeSet))
    let pct : ℚ := (matched.length : ℚ) / (requiredSet.length : ℚ) * 100
    let matched_with_case := resume_skills.filter (fun s => decide (normalize_skill s ∈ matched))
    (round2 pct, matched_with_case, missing)

/-- `SKILL_MULTIPLIERS.get(k, d)`. -/
def multLookup (k : Str) (d : ℚ) : ℚ := (lookupL SKILL_MULTIPLIERS k).getD d

/-- Weight of one required skill: `(1.0 + SKILL_MULTIPLIERS.get(norm, d)) * 10`,
where `d` is the default used on a table miss. -/
def weightOf (d : ℚ) (req_skill : Str) : ℚ :=
  (1 + multLookup (normalize_skill req_skill) d) * 10

/-- One loop iteration of calculate_weighted_match_score: add the weight to
the total, and to the matched weight when the skill is in the resume. -/
def wmStep (resumeNorm : List Str) (a : ℚ × ℚ) (req : Str) : ℚ × ℚ :=
  let w := weightOf 1 req
  (a.1 + w, if normalize_skill req ∈ resumeNorm then a.2 + w else a.2)

/-- calculate_weighted_match_score: accumulate total and matched weight over
the required skills; the source's table-miss default is 1.0. -/
def calculate_weighted_match_score (resume_skills job_requirements : List Str) : ℚ :=
  if job_requirements = [] then 0
  else
    let resumeNorm := resume_skills.map normalize_skill
    let acc := job_requirements.foldl (wmStep resumeNorm) (0, 0)
    if acc.1 = 0 then 0 else round2 (acc.2 / acc.1 * 100)

/-- Modelled from the spec's words for comparison (claim C2): the same
weighted match but with the demand premium DEFAULTING TO 0 when the skill is
absent from the skill-premium table, as the specification states. -/
def calculateWeightedMatchSpec (resume_skills job_requirements : List Str) : ℚ :=
  if job_requirements = [] then 0
  else
    let resumeNorm := resume_skills.map normalize_skill
    let total := (job_requirements.map (weightOf 0)).sum
    let matched :=
      ((job_requirements.filter (fun r => decide (normalize_skill r ∈ resumeNorm))).map (weightOf 0)).sum
    if total = 0 then 0 else round2 (matched / total * 100)

/-- The amended C2 statement, written in the spec's sum-over-weights style but
with the source's actual table-miss default of 1.0. -/
def calculateWeightedMatchAmended (resume_skills job_requirements : List Str) : ℚ :=
  if job_requirements = [] then 0
  else
    let resumeNorm := resume_skills.map normalize_skill
    let total := (job_requirements.map (weightOf 1)).sum
    let matched :=
      ((job_requirements.filter (fun r => decide (normalize_skill r ∈ resumeNorm))).map (weightOf 1)).sum
    if total = 0 then 0 else round2 (matched / total * 100)

/-! ## Contact information (utils.py, regex-based) -/

/-- Class `[A-Za-z0-9._%+-]` of the email regex. -/
def emailLocalC : RE :=
  .cls (fun c => c.isAlphanum || c = '.' || c = '_' || c = '%' || c = '+' || c = '-')

/-- Class `[A-Za-z0-9.-]` of the email regex. -/
def emailDomC : RE := .cls (fun c => c.isAlphanum || c = '.' || c = '-')

/-- Class `[A-Z|a-z]` of the email regex (the literal `|` is part of the
class in the source). -/
def emailTldC : RE :=
  .cls (fun c => ('A' ≤ c && c ≤ 'Z') || c = '|' || ('a' ≤ c && c ≤ 'z'))

/-- Email pattern `\b[A-Za-z0-9._%+-]+@[A-Za-z0-9.-]+\.[A-Z|a-z]{2,}\b`. -/
def emailRE : RE :=
  seqL [RE.wordB, .rep emailLocalC 1 none false, .lit '@', .rep emailDomC 1 none false,
        .lit '.', .rep emailTldC 2 none false, RE.wordB]

/-- Class `[-.]` of the phone pattern. -/
def clsDashDot : RE := .cls (fun c => c = '-' || c = '.')

/-- Phone pattern `\b\d{3}[-.]?\d{3}[-.]?\d{4}\b`. -/
def phoneRE : RE :=
  seqL [RE.wordB, .rep clsD 3 (some 3) false, .rep clsDashDot 0 (some 1) false,
        .rep clsD 3 (some 3) false, .rep clsDashDot 0 (some 1) false,
        .rep clsD 4 (some 4) false, RE.wordB]

/-- LinkedIn pattern `linkedin\.com/in/[A-Za-z0-9-]+` with `re.IGNORECASE`. -/
def linkedinRE : RE :=
  seqL [.istr (S ("linkedin.com/in/")), .rep (.cls (fun c => c.isAlphanum || c = '-')) 1 none false]

/-- Result record of extract_contact_info. -/
structure ContactInfo where
  email : Option Str
  phone : Option Str
  linkedin : Option Str

/-- The text of the whole match of a successful search. -/
def matchedText (s : Str) (r : Option (Nat × Nat × Option (Nat × Nat))) : Option Str :=
  r.map (fun t => (s.drop t.1).take (t.2.1 - t.1))

/-- extract_contact_info: first email / phone / LinkedIn match of the raw text. -/
def extract_contact_info (text : Str) : ContactInfo :=
  ⟨matchedText text (reSearch emailRE text),
   matchedText text (reSearch phoneRE text),
   matchedText text (reSearch linkedinRE text)⟩

/-- `sum(1 for v in contact_info.values() if v)`: every matched string is
non-empty, so Python truthiness is `isSome`. -/
def contactFound (ci : ContactInfo) : ℕ :=
  (if ci.email.isSome then 1 else 0) + (if ci.phone.isSome then 1 else 0)
    + (if ci.linkedin.isSome then 1 else 0)

/-! ## Resume quality rubric (industry_data.py QUALITY_RUBRIC + utils.py) -/

/-- Points + thresholds of one numeric rubric category. -/
structure RubricTiers where
  points : ℚ
  excellent : ℕ
  good : ℕ
  acceptable : ℕ

/-- QUALITY_RUBRIC length: thresholds in characters. -/
def QUALITY_RUBRIC_length : RubricTiers := ⟨15, 800, 600, 400⟩

/-- QUALITY_RUBRIC skills_count. -/
def QUALITY_RUBRIC_skills_count : RubricTiers := ⟨15, 12, 8, 5⟩

/-- QUALITY_RUBRIC experience: thresholds in years. -/
def QUALITY_RUBRIC_experience : RubricTiers := ⟨20, 5, 3, 1⟩

/-- QUALITY_RUBRIC education tiers. -/
def QUALITY_RUBRIC_education_excellent : List Str := [S ("Master"), S ("PhD")]

/-- QUALITY_RUBRIC education good tier. -/
def QUALITY_RUBRIC_education_good : List Str := [S ("Bachelor")]

/-- QUALITY_RUBRIC education acceptable tier. -/
def QUALITY_RUBRIC_education_acceptable : List Str := [S ("Diploma"), S ("High School")]

/-- QUALITY_RUBRIC sections, required list. -/
def QUALITY_RUBRIC_sections_required : List Str :=
  [S ("experience"), S ("education"), S ("skills")]

/-- QUALITY_RUBRIC action verbs. -/
def QUALITY_RUBRIC_action_verbs : List Str :=
  [S ("Led"), S ("Developed"), S ("Managed"), S ("Created"), S ("Implemented"),
   S ("Designed"), S ("Built"), S ("Improved"), S ("Achieved"), S ("Optimized")]

/-- QUALITY_RUBRIC quantification metric keywords. -/
def QUALITY_RUBRIC_metric_verbs : List Str :=
  [S ("increased"), S ("reduced"), S ("improved"), S ("grew"), S ("decreased"),
   S ("%"), S ("$")]

/-- Category 1 of analyze_resume_quality (text length): score, issues,
analysis entry. -/
def qualityLength (resume_text : Str) : ℚ × List Str × (Str × Str) :=
  let c := resume_text.length
  if c ≥ QUALITY_RUBRIC_length.excellent then
    (QUALITY_RUBRIC_length.points, [],
     (S ("Length"), S ("Excellent (") ++ natToStr c ++ S (" characters)")))
  else if c ≥ QUALITY_RUBRIC_length.good then
    (12, [], (S ("Length"), S ("Good (") ++ natToStr c ++ S (" characters)")))
  else if c ≥ QUALITY_RUBRIC_length.acceptable then
    (8, [S ("Resume text is short (") ++ natToStr c ++ S (" chars, 800+ recommended)")],
     (S ("Length"), S ("Acceptable (") ++ natToStr c ++ S (" characters)")))
  else
    (0, [S ("Resume is too brief (") ++ natToStr c ++ S (" chars, minimum 400 required)")],
     (S ("Length"), S ("Too short (") ++ natToStr c ++ S (" characters)")))

/-- Category 2 (skill count). -/
def qualitySkills (resume_skills : List Str) : ℚ × List Str × (Str × Str) :=
  let n := resume_skills.length
  if n ≥ QUALITY_RUBRIC_skills_count.excellent then
    (QUALITY_RUBRIC_skills_count.points, [],
     (S ("Skills"), S ("Excellent (") ++ natToStr n ++ S (" skills)")))
  else if n ≥ QUALITY_RUBRIC_skills_count.good then
    (12, [], (S ("Skills"), S ("Good (") ++ natToStr n ++ S (" skills)")))
  else if n ≥ QUALITY_RUBRIC_skills_count.acceptable then
    (8, [], (S ("Skills"), S ("Acceptable (") ++ natToStr n ++ S (" skills)")))
  else
    (0, [S ("Too few skills (") ++ natToStr n ++ S (", 8+ recommended)")],
     (S ("Skills"), S ("Limited (") ++ natToStr n ++ S (" skills)")))

/-- Category 3 (experience years). -/
def qualityExperience (experience : ℤ) : ℚ × List Str × (Str × Str) :=
  if experience ≥ (QUALITY_RUBRIC_experience.excellent : ℤ) then
    (QUALITY_RUBRIC_experience.points, [],
     (S ("Experience"), S ("Excellent (") ++ intToStr experience ++ S ("+ years)")))
  else if experience ≥ (QUALITY_RUBRIC_experience.good : ℤ) then
    (15, [], (S ("Experience"), S ("Good (") ++ intToStr experience ++ S (" years)")))
  else if experience ≥ (QUALITY_RUBRIC_experience.acceptable : ℤ) then
    (10, [], (S ("Experience"), S ("Entry level (") ++ intToStr experience ++ S (" year)")))
  else
    (0, [S ("Include years of professional experience")],
     (S ("Experience"), S ("No experience found")))

/-- Category 4 (education level). -/
def qualityEducation (education : Str) : ℚ × List Str × (Str × Str) :=
  if education ∈ QUALITY_RUBRIC_education_excellent then
    (15, [], (S ("Education"), S ("Excellent (") ++ education ++ S (")")))
  else if education ∈ QUALITY_RUBRIC_education_good then
    (12, [], (S ("Education"), S ("Good (") ++ education ++ S (")")))
  else if education ∈ QUALITY_RUBRIC_education_acceptable then
    (8, [], (S ("Education"), S ("Basic (") ++ education ++ S (")")))
  else
    (0, [S ("Mention your educational background")],
     (S ("Education"), S ("Not mentioned")))

/-- Category 5 (contact information). -/
def qualityContact (resume_text : Str) : ℚ × List Str × (Str × Str) :=
  let n := contactFound (extract_contact_info resume_text)
  if n ≥ 3 then
    (10, [], (S ("Contact"), S ("Perfect (all info included)")))
  else if n ≥ 2 then
    (8, [], (S ("Contact"), S ("Good (email + phone or LinkedIn)")))
  else if n ≥ 1 then
    (5, [S ("Add more contact information (email, phone, LinkedIn)")],
     (S ("Contact"), S ("Partial (at least one item)")))
  else
    (0, [S ("Add contact information: email, phone, LinkedIn")],
     (S ("Contact"), S ("Missing")))

/-- Category 6 (required sections present). -/
def qualitySections (resume_text : Str) : ℚ × List Str × (Str × Str) :=
  let found := QUALITY_RUBRIC_sections_required.filter
    (fun sec => isSubstrB (toLowerS sec) (toLowerS resume_text))
  if found.length ≥ 3 then
    (10, [], (S ("Sections"), S ("Perfect (") ++ joinCommaSep found ++ S (")")))
  else if found.length ≥ 2 then
    let missing := QUALITY_RUBRIC_sections_required.filter (fun s => decide (s ∉ found))
    (7, [S ("Add ") ++ toLowerS (missing.headD []) ++ S (" section")],
     (S ("Sections"), S ("Good (") ++ joinCommaSep found ++ S (")")))
  else
    (3, [S ("Include Experience, Education, and Skills sections")],
     (S ("Sections"), S ("Incomplete (") ++ joinCommaSep found ++ S (")")))

/-- Category 7 (action verbs; `str.count` of each lower-cased verb). -/
def qualityActionVerbs (resume_text : Str) : ℚ × List Str × (Str × Str) :=
  let n := (QUALITY_RUBRIC_action_verbs.map
    (fun v => countOccur (toLowerS v) (toLowerS resume_text))).sum
  if n ≥ 8 then
    (10, [], (S ("Action Verbs"), S ("Excellent (") ++ natToStr n ++ S (" verbs)")))
  else if n ≥ 5 then
    (7, [], (S ("Action Verbs"), S ("Good (") ++ natToStr n ++ S (" verbs)")))
  else if n ≥ 2 then
    (4, [S ("Use more action verbs (led, developed, managed, created, etc.)")],
     (S ("Action Verbs"), S ("Some (") ++ natToStr n ++ S (" verbs)")))
  else
    (0, [S ("Start bullet points with strong action verbs")],
     (S ("Action Verbs"), S ("Needs improvement")))

/-- Category 8 (quantified achievements; counted on the raw text). -/
def qualityMetrics (resume_text : Str) : ℚ × List Str × (Str × Str) :=
  let n := (QUALITY_RUBRIC_metric_verbs.map (fun k => countOccur k resume_text)).sum
  if n ≥ 5 then
    (5, [], (S ("Metrics"), S ("Excellent (") ++ natToStr n ++ S (" metrics)")))
  else if n ≥ 2 then
    (3, [], (S ("Metrics"), S ("Good (") ++ natToStr n ++ S (" metrics)")))
  else
    (0, [S ("Add metrics/numbers to achievements (e.g., 20% improvement)")],
     (S ("Metrics"), S ("Needs more quantification")))

/-- analyze_resume_quality: sum of the eight category scores capped at 100,
rounded to one decimal, with the concatenated issue list and analysis entries
in source order. -/
def analyze_resume_quality (resume_text : Str) (resume_skills : List Str)
    (experience : ℤ) (education : Str) : ℚ × List Str × List (Str × Str) :=
  if resume_text = [] then (0, [S ("Resume text is empty")], [])
  else
    let c1 := qualityLength resume_text
    let c2 := qualitySkills resume_skills
    let c3 := qualityExperience experience
    let c4 := qualityEducation education
    let c5 := qualityContact resume_text
    let c6 := qualitySections resume_text
    let c7 := qualityActionVerbs resume_text
    let c8 := qualityMetrics resume_text
    let total := c1.1 + c2.1 + c3.1 + c4.1 + c5.1 + c6.1 + c7.1 + c8.1
    let issues := c1.2.1 ++ c2.2.1 ++ c3.2.1 ++ c4.2.1 ++ c5.2.1 ++ c6.2.1 ++ c7.2.1 ++ c8.2.1
    let analysis := [c1.2.2, c2.2.2, c3.2.2, c4.2.2, c5.2.2, c6.2.2, c7.2.2, c8.2.2]
    (round1 (min 100 total), issues, analysis)

/-! ## Salary prediction (utils.py) -/

/-- Result record of predict_salary (currency/period strings omitted; they are
constants never read by the claims). -/
structure SalaryPred where
  lo : ℚ
  av : ℚ
  hi : ℚ
  level : Str
deriving DecidableEq

/-- Fallback band for the (unreachable) case of a missing `Mid-Level` row:
every industry table of INDUSTRY_SALARY_DATA has one. -/
def FALLBACK_BAND : SalaryBand := ⟨0, 0, 0⟩

/-- predict_salary on an integer experience input (the string branch of the
source parses the first digit run and rejoins this pipeline).  Experience is
capped at 30, the level is selected from it (negative values fall into
`Entry Level`), the multiplier combines the capped skill-premium sum, the
education multiplier and 2% per capped year, and each bound is floored at
35 / 50 / 70 before `round(x, 0)`. -/
def predict_salary (experience_years : ℤ) (resume_skills : List Str)
    (education : Str) (industry : Str) : SalaryPred :=
  let exp := min experience_years 30
  let industry_data :=
    (lookupL INDUSTRY_SALARY_DATA industry).getD
      ((lookupL INDUSTRY_SALARY_DATA (S ("Tech"))).getD [])
  let level :=
    if exp < 2 then S ("Entry Level")
    else if exp < 5 then S ("Junior")
    else if exp < 10 then S ("Mid-Level")
    else if exp < 15 then S ("Senior")
    else S ("Staff+")
  let base :=
    (lookupL industry_data level).getD
      ((lookupL industry_data (S ("Mid-Level"))).getD FALLBACK_BAND)
  let resumeNorm := resume_skills.map normalize_skill
  let skillMult : ℚ :=
    min 2 (1 + ((SKILL_MULTIPLIERS.filter (fun p => decide (p.1 ∈ resumeNorm))).map
      (fun p => p.2)).sum)
  let eduMult : ℚ :=
    if education = S ("PhD") then 115/100
    else if education = S ("Master") then 110/100
    else if education = S ("Bachelor") then 105/100
    else 1
  let expMult : ℚ := 1 + ((min exp 20 : ℤ) : ℚ) * (2/100)
  let totalMult := skillMult * eduMult * expMult
  ⟨round0 (max 35 (base.lo * totalMult)),
   round0 (max 50 (base.av * totalMult)),
   round0 (max 70 (base.hi * totalMult)),
   level⟩

/-! ## Experience and education extraction (utils.py, regex-based) -/

/-- `s?` under `re.IGNORECASE`. -/
def optS : RE := .rep (iLit 's') 0 (some 1) false

/-- Pattern `(\d+)\s+(?:years?|yrs?)` (IGNORECASE). -/
def exp1RE : RE :=
  seqL [.grp (.rep clsD 1 none false), wsPlus,
        altL [seqL [.istr (S ("year")), optS], seqL [.istr (S ("yr")), optS]]]

/-- Pattern `(\d+)\+\s+(?:years?|yrs?)` (IGNORECASE). -/
def exp2RE : RE :=
  seqL [.grp (.rep clsD 1 none false), .lit '+', wsPlus,
        altL [seqL [.istr (S ("year")), optS], seqL [.istr (S ("yr")), optS]]]

/-- Pattern `(?:since|from)\s+(?:20\d{2}|19\d{2})` (IGNORECASE, no capture
group, so `findall` yields whole matches). -/
def exp3RE : RE :=
  seqL [altL [.istr (S ("since")), .istr (S ("from"))], wsPlus,
        altL [seqL [.istr (S ("20")), .rep clsD 2 (some 2) false],
              seqL [.istr (S ("19")), .rep clsD 2 (some 2) false]]]

/-- One findall item of extract_experience: a 4-character item is treated as a
year (kept only when `0 < 2026 - year <= 60`); otherwise `int(item)`, with a
parse failure skipping the item (the bare `except: continue`). -/
def expFromItem (item : Str) : Option ℤ :=
  if item.length = 4 then
    match parsePyInt item with
    | some year =>
      let e : ℤ := 2026 - year
      if 0 < e ∧ e ≤ 60 then some e else none
    | none => none
  else parsePyInt item

/-- extract_experience: the maximum over all pattern matches, capped at 50;
0 when nothing matched. -/
def extract_experience (text : Str) : ℤ :=
  let items := reFindAll exp1RE text ++ reFindAll exp2RE text ++ reFindAll exp3RE text
  let found := items.filterMap expFromItem
  match found.max? with
  | some m => min m 50
  | none => 0

/-- Wrap an education pattern in the `\b ... \b` the source adds. -/
def eduW (r : RE) : RE := seqL [RE.wordB, r, RE.wordB]

/-- An optional literal character (`x?`; extract_education has no IGNORECASE,
and the text is lower-cased before the search). -/
def optC (c : Char) : RE := .rep (.lit c) 0 (some 1) false

/-- The regex `.` (any character but newline). -/
def anyNotNl : RE := .cls (fun c => decide (c ≠ '\n'))

/-- education_mapping of extract_education, in source order; the patterns are
regex sources (`'?` optional apostrophe, `.` any character). -/
def education_mapping : List (Str × List RE) :=
  [(S ("PhD"),
    [eduW (.lstr (S ("phd"))), eduW (.lstr (S ("doctorate"))),
     eduW (.lstr (S ("doctor of philosophy"))), eduW (.lstr (S ("postdoctoral")))]),
   (S ("Master"),
    [eduW (seqL [.lstr (S ("master")), optC apos, optC 's']),
     eduW (.lstr (S ("ms"))), eduW (seqL [.lit 'm', anyNotNl, .lit 's']),
     eduW (.lstr (S ("mba"))), eduW (.lstr (S ("mtech"))),
     eduW (seqL [.lit 'm', anyNotNl, .lstr (S ("tech"))])]),
   (S ("Bachelor"),
    [eduW (seqL [.lstr (S ("bachelor")), optC apos, optC 's']),
     eduW (.lstr (S ("bs"))), eduW (seqL [.lit 'b', anyNotNl, .lit 's']),
     eduW (seqL [.lit 'b', anyNotNl, .lstr (S ("tech"))]),
     eduW (.lstr (S ("btech"))), eduW (.lstr (S ("bsc"))),
     eduW (seqL [.lit 'b', anyNotNl, .lstr (S ("sc"))])]),
   (S ("Diploma"),
    [eduW (.lstr (S ("diploma"))), eduW (.lstr (S ("associate"))),
     eduW (seqL [.lit 'a', anyNotNl, .lit 's'])]),
   (S ("High School"),
    [eduW (.lstr (S ("high school"))), eduW (.lstr (S ("secondary"))),
     eduW (seqL [.lit 'h', anyNotNl, .lit 's']), eduW (.lstr (S ("hs")))])]

/-- extract_education: first degree (in mapping order) with a pattern hit in
the lower-cased text; `"Not Mentioned"` otherwise. -/
def extract_education (text : Str) : Str :=
  let tl := toLowerS text
  (education_mapping.findSome? (fun p =>
    if p.2.any (fun r => (reSearch r tl).isSome) then some p.1 else none)).getD
    (S ("Not Mentioned"))

/-! ## Job-role detection (utils.py) -/

/-- The normalized job text: `re.sub(r'\s+', ' ', jd.lower().strip())`. -/
def jobLowerOf (t : Str) : Str := collapseWs (stripS (toLowerS t))

/-- First role (in group order) one of whose phrases, STRIPPED, occurs in the
text — the non-tech loop applies `phrase.strip()`. -/
def findPhraseRoleStrip (groups : List (Str × List Str)) (jl : Str) : Option Str :=
  groups.findSome? (fun g =>
    if g.2.any (fun p => isSubstrB (stripS p) jl) then some g.1 else none)

/-- First role (in group order) one of whose phrases occurs in the text —
the tech loop uses the phrase verbatim. -/
def findPhraseRole (groups : List (Str × List Str)) (jl : Str) : Option Str :=
  groups.findSome? (fun g =>
    if g.2.any (fun p => isSubstrB p jl) then some g.1 else none)

/-- Keyword stage: count pattern hits per role; among the roles with a
positive count, the first one attaining the maximal count wins (Python
`max(dict, key=dict.get)` keeps the first maximum in insertion order). -/
def roleKeywordBest (jl : Str) : Option Str :=
  let scores := role_patterns.map (fun g => (g.1, g.2.countP (fun p => isSubstrB p jl)))
  let positive := scores.filter (fun rs => decide (0 < rs.2))
  match positive with
  | [] => none
  | x :: rest => some ((rest.foldl (fun best y => if y.2 > best.2 then y else best) x).1)

/-- Title pattern
`(?:job title|position|role|we are hiring|looking for|hiring)\s*[:\-]\s*([a-z\s]+?)(?:\s*\-|\s*\(|\.|$)`
(searched with IGNORECASE). -/
def titlePattern1 : RE :=
  seqL [altL [.istr (S ("job title")), .istr (S ("position")), .istr (S ("role")),
              .istr (S ("we are hiring")), .istr (S ("looking for")), .istr (S ("hiring"))],
        wsStar, .cls (fun c => c = ':' || c = '-'), wsStar,
        .grp (.rep clsAZSi 1 none true),
        altL [seqL [wsStar, .lit '-'], seqL [wsStar, .lit '('], .lit '.', RE.eos]]

/-- Title pattern `^([a-z\s]+?)\s*[\-\|]\s*(?:full time|part time|remote)`. -/
def titlePattern2 : RE :=
  seqL [RE.bos, .grp (.rep clsAZSi 1 none true), wsStar,
        .cls (fun c => c = '-' || c = '|'), wsStar,
        altL [.istr (S ("full time")), .istr (S ("part time")), .istr (S ("remote"))]]

/-- Title pattern `^#?\s*([a-z][a-z\s]{3,40}?)(?:\s+job|\s+position|\.)`. -/
def titlePattern3 : RE :=
  seqL [RE.bos, .rep (.lit '#') 0 (some 1) false, wsStar,
        .grp (seqL [clsAZi, .rep clsAZSi 3 (some 40) true]),
        altL [seqL [wsPlus, .istr (S ("job"))], seqL [wsPlus, .istr (S ("position"))],
              .lit '.']]

/-- title_patterns of detect_job_role, in source order. -/
def title_patterns : List RE := [titlePattern1, titlePattern2, titlePattern3]

/-- Title-extraction stage of detect_job_role: search each pattern over the
first 300 characters; accept group 1 (stripped) only when its length is in
`[4, 50)` and it contains neither `experience` nor `description`; return it
title-cased.  A match failing the acceptance test falls through to the next
pattern, as in the source. -/
def tryTitlePatterns (jl : Str) : Option Str :=
  let window := jl.take 300
  title_patterns.findSome? (fun pat =>
    match reSearch pat window with
    | some (_, _, some g) =>
      let title := stripS ((window.drop g.1).take (g.2 - g.1))
      if 4 ≤ title.length ∧ title.length < 50 ∧
          isSubstrB (S ("experience")) title = false ∧
          isSubstrB (S ("description")) title = false then
        some (titleCaseS title)
      else none
    | _ => none)

/-- detect_job_role on a string input: empty input hits the falsiness guard
(returning `Software Engineer`); otherwise the cascade runs on the normalized
text: non-tech phrase groups, tech phrase groups, keyword scoring, title
extraction, then the `Other Role` fallback. -/
def detect_job_role (job_description : Str) : Str :=
  if job_description = [] then S ("Software Engineer")
  else
    let jl := jobLowerOf job_description
    match findPhraseRoleStrip exact_phrases_non_tech jl with
    | some role => role
    | none =>
      match findPhraseRole exact_phrases_tech jl with
      | some role => role
      | none =>
        match roleKeywordBest jl with
        | some role => role
        | none =>
          match tryTitlePatterns jl with
          | some title => title
          | none => S ("Other Role")

/-- A Python argument as received by detect_job_role: `None`, a string, or a
value of any non-string type. -/
inductive PyInput where
  | pynone : PyInput
  | pystr : Str → PyInput
  | nonstring : PyInput

/-- detect_job_role including its input guard
`if not job_description or not isinstance(job_description, str)`: `None`,
non-strings, and the empty string all return `Software Engineer`. -/
def detect_job_role_py : PyInput → Str
  | .pynone => S ("Software Engineer")
  | .nonstring => S ("Software Engineer")
  | .pystr s => detect_job_role s

/-! ## Job-requirement extraction (utils.py) -/

/-- The candidate vocabulary of extract_job_requirements: technical, soft and
creative skills. -/
def ALL_JOB_SKILLS : List Str :=
  TECHNICAL_SKILLS_KEYS ++ SOFT_SKILLS_KEYS ++ CREATIVE_SKILLS_KEYS

/-- The requirement sections: for each pattern found in the lower-cased text,
the 500 characters of the ORIGINAL text following the first occurrence. -/
def requirementSections (jd : Str) : List Str :=
  let jl := toLowerS jd
  requirement_patterns.filterMap (fun pat =>
    match findSubIdx pat jl with
    | some idx => some ((jd.drop (idx + pat.length)).take 500)
    | none => none)

/-- Indicator-phrase pass: for each indicator, extract skills from the first
150 characters of each split fragment after an occurrence. -/
def indicatorSkills (jl : Str) : List Str :=
  ((skill_indicators.map (fun ind =>
    ((splitOnStr ind jl).drop 1).map
      (fun part => extract_skills (part.take 150) (some ALL_JOB_SKILLS)))).flatten).flatten

/-- The literally-extracted skill set of extract_job_requirements (before any
role-default merging): section extraction, whole-text fallback when empty,
indicator-phrase enrichment when fewer than 5 skills were found. -/
def literal_extracted_skills (jd : Str) : List Str :=
  let jl := toLowerS jd
  let s1 := dedupS (((requirementSections jd).map
    (fun sec => extract_skills sec (some ALL_JOB_SKILLS))).flatten)
  let s2 := if s1 = [] then extract_skills jd (some ALL_JOB_SKILLS) else s1
  if s2.length < 5 then dedupS (s2 ++ indicatorSkills jl) else s2

/-- extract_job_requirements: empty for inputs under 10 characters after
stripping; otherwise literal extraction, then role defaults are merged only
when the detected role is a key of role_defaults and fewer than 6 skills were
found; a role outside role_defaults gets only the literal skills, with the
role name itself as placeholder when nothing was found and the role is not
`Other Role`. -/
def extract_job_requirements (job_description : Str) : List Str :=
  if job_description = [] ∨ (stripS job_description).length < 10 then []
  else
    let s3 := literal_extracted_skills job_description
    let detected_role := detect_job_role job_description
    if (lookupL role_defaults detected_role).isSome ∧ s3.length < 6 then
      sortStr (dedupS (s3 ++ (lookupL role_defaults detected_role).getD []))
    else if lookupL role_defaults detected_role = none then
      if s3 = [] ∧ detected_role ≠ S ("Other Role") then sortStr [detected_role]
      else sortStr s3
    else sortStr s3

/-! ## Readability stats (utils.py) -/

/-- Result record of get_readability_stats. -/
structure ReadabilityStats where
  word_count : ℕ
  char_count : ℕ
  reading_time_mins : ℤ
  length_ok : Bool
  suggestion : Str
deriving DecidableEq

/-- get_readability_stats: reading time is `max(1, round(word_count / 200.0))`
(Python `round` = nearest, half to even), the length band is `[400, 1200]`. -/
def get_readability_stats (resume_text : Str) : ReadabilityStats :=
  if resume_text = [] then
    ⟨0, 0, 0, false, S ("Add resume content.")⟩
  else
    let wc := (splitWs resume_text).length
    ⟨wc, resume_text.length,
     max 1 (pyRound ((wc : ℚ) / 200)),
     decide (400 ≤ wc ∧ wc ≤ 1200),
     if wc < 400 then
       S ("Resume is too short. Add more bullet points and achievements (target 400–800 words).")
     else if wc > 1200 then
       S ("Resume is long. Consider trimming to 1–2 pages (under 800 words) for ATS.")
     else S ("Length is good for ATS and recruiters.")⟩

/-! ## Batch ranking loop (app.py) -/

/-- One row of the batch ranking table. -/
structure RankRow where
  resume : Str
  atsScore : ℚ
  jobMatchPct : ℚ
  qualityPct : ℚ
  matchedSkills : ℕ
  totalSkills : ℕ
deriving DecidableEq

/-- The all-zero row recorded for a document whose text extraction failed. -/
def zeroRow (name : Str) : RankRow := ⟨name, 0, 0, 0, 0, 0⟩

/-- One iteration of the batch loop of app.py: a text starting with the
`Error` sentinel yields the zero row; otherwise skills are extracted against
the custom and full vocabularies and the match and quality scores computed
(the ATS score is the quality score). -/
def batchRow (custom_skills all_industry job_skills : List Str)
    (name text : Str) : RankRow :=
  if isPrefixB (S ("Error")) text then zeroRow name
  else
    let rs1 := extract_skills text (some custom_skills)
    let rs2 := extract_skills text (some all_industry)
    let resume_skills := sortStr (dedupS (rs1 ++ rs2))
    let m := calculate_match resume_skills job_skills
    let q := analyze_resume_quality text resume_skills
      (extract_experience text) (extract_education text)
    ⟨name, round2 q.1, round2 m.1, round2 q.1, m.2.1.length, resume_skills.length⟩

/-- The batch ranking: one row per document, in order. -/
def batch_ranking (custom_skills all_industry job_skills : List Str)
    (docs : List (Str × Str)) : List RankRow :=
  docs.map (fun d => batchRow custom_skills all_industry job_skills d.1 d.2)

/-! ## Helper lemmas -/

theorem mem_dedupS {a : Str} {l : List Str} : a ∈ dedupS l ↔ a ∈ l := by
  induction l with
  | nil => simp [dedupS]
  | cons x xs ih =>
    simp only [dedupS, List.mem_cons]
    constructor
    · rintro (rfl | hmem)
      · exact Or.inl rfl
      · exact Or.inr (ih.mp (List.mem_of_mem_filter hmem))
    · rintro (rfl | hmem)
      · exact Or.inl rfl
      · by_cases hax : a = x
        · exact Or.inl hax
        · refine Or.inr (List.mem_filter.mpr ⟨ih.mpr hmem, by simpa using hax⟩)

theorem mem_insertS {a x : Str} {l : List Str} : a ∈ insertS x l ↔ a = x ∨ a ∈ l := by
  induction l with
  | nil => simp [insertS]
  | cons y ys ih =>
    simp only [insertS]
    split
    · simp [List.mem_cons]
    · simp only [List.mem_cons, ih]
      tauto

theorem mem_sortStr {a : Str} {l : List Str} : a ∈ sortStr l ↔ a ∈ l := by
  induction l with
  | nil => simp [sortStr]
  | cons x xs ih =>
    simp only [sortStr, List.foldr_cons] at ih ⊢
    rw [mem_insertS, ih, List.mem_cons]

theorem dedupS_ne_nil {l : List Str} (h : l ≠ []) : dedupS l ≠ [] := by
  cases l with
  | nil => exact absurd rfl h
  | cons x xs => simp [dedupS]

theorem isPrefixB_trans {a b c : Str} (h1 : isPrefixB a b = true)
    (h2 : isPrefixB b c = true) : isPrefixB a c = true := by
  induction a generalizing b c with
  | nil => simp [isPrefixB]
  | cons x xs ih =>
    cases b with
    | nil => simp [isPrefixB] at h1
    | cons y ys =>
      cases c with
      | nil => simp [isPrefixB] at h2
      | cons z zs =>
        simp only [isPrefixB, Bool.and_eq_true, decide_eq_true_eq] at h1 h2 ⊢
        exact ⟨h1.1.trans h2.1, ih h1.2 h2.2⟩

theorem isSubstrB_of_prefix_substr {b a h : Str} (hp : isPrefixB b a = true)
    (hs : isSubstrB a h = true) : isSubstrB b h = true := by
  induction h with
  | nil =>
    simp only [isSubstrB] at hs ⊢
    exact isPrefixB_trans hp hs
  | cons c t ih =>
    simp only [isSubstrB, Bool.or_eq_true] at hs ⊢
    cases hs with
    | inl h1 => exact Or.inl (isPrefixB_trans hp h1)
    | inr h2 => exact Or.inr (ih h2)

theorem wmStep_foldl (resumeNorm : List Str) (l : List Str) (a b : ℚ) :
    l.foldl (wmStep resumeNorm) (a, b)
      = (a + (l.map (weightOf 1)).sum,
         b + ((l.filter (fun r => decide (normalize_skill r ∈ resumeNorm))).map
              (weightOf 1)).sum) := by
  induction l generalizing a b with
  | nil => simp
  | cons x xs ih =>
    simp only [List.foldl_cons, List.map_cons, List.sum_cons, List.filter_cons]
    by_cases hx : normalize_skill x ∈ resumeNorm
    · rw [show wmStep resumeNorm (a, b) x = (a + weightOf 1 x, b + weightOf 1 x) by
        simp [wmStep, hx]]
      rw [ih]
      simp only [hx, decide_eq_true_eq, eq_self_iff_true, if_pos trivial, List.map_cons,
        List.sum_cons, Prod.mk.injEq]
      constructor <;> ring
    · rw [show wmStep resumeNorm (a, b) x = (a + weightOf 1 x, b) by
        simp [wmStep, hx]]
      rw [ih]
      rw [if_neg (by simp [hx])]
      simp only [Prod.mk.injEq]
      constructor <;> ring

theorem round1_nonneg {q : ℚ} (h : 0 ≤ q) : 0 ≤ round1 q := by
  unfold round1
  have h1 : (0 : ℤ) ≤ pyRound (q * 10) := pyRound_ge_of_le (by push_cast; linarith)
  have h2 : (0 : ℚ) ≤ (pyRound (q * 10) : ℚ) := by exact_mod_cast h1
  linarith

theorem round1_le_100 {q : ℚ} (h : q ≤ 100) : round1 q ≤ 100 := by
  unfold round1
  have h1 : pyRound (q * 10) ≤ (1000 : ℤ) := pyRound_le_of_le (by push_cast; linarith)
  have h2 : (pyRound (q * 10) : ℚ) ≤ (1000 : ℚ) := by exact_mod_cast h1
  linarith

theorem round0_floor_le {a : ℤ} {q : ℚ} (h : (a : ℚ) ≤ q) : (a : ℚ) ≤ round0 q := by
  unfold round0
  exact_mod_cast pyRound_ge_of_le h

/-! ## Claim theorems -/

/-- C1 counterexample: the claim says a short skill token such as `go`
occurring only inside a longer word such as `google` is never reported, but
extract_skills reports `Go` for the text `google` — the direct branch is
plain substring containment.  The second conjunct confirms that `go` has no
token-bounded (space-delimited) occurrence in that text. -/
theorem extract_skills_go_google_cex :
    extract_skills (S ("google")) (some [S ("Go")]) = [S ("Go")] ∧
    isSubstrB (S (" go ")) (S (" google ")) = false := by
  constructor
  · decide
  · decide

/-- C1 (amended): the word-boundary guard covers only part of the alias
branch; a candidate skill whose normalized form occurs anywhere as a plain
substring of the lower-cased text — even inside a longer word — is reported. -/
theorem extract_skills_direct_substring (text : Str) (skills : List Str) (skill : Str)
    (htext : text ≠ []) (hmem : skill ∈ skills)
    (hsub : isSubstrB (normalize_skill skill) (toLowerS text) = true) :
    skill ∈ extract_skills text (some skills) := by
  simp only [extract_skills, if_neg htext]
  rw [mem_sortStr, mem_dedupS]
  refine List.mem_filter.mpr ⟨hmem, ?_⟩
  unfold skillHit
  simp only [hsub, Bool.true_or]

/-- C1 witness: `Django` is reported for a text that contains it. -/
theorem extract_skills_direct_substring_witness :
    S ("Django") ∈ extract_skills (S ("django rocks")) (some [S ("Django")]) :=
  extract_skills_direct_substring (S ("django rocks")) [S ("Django")] (S ("Django"))
    (by decide) (by decide) (by decide)

set_option maxRecDepth 20000 in
/-- C2 counterexample: the claim's weight formula uses a demand premium
DEFAULTING TO 0 for a skill absent from the premium table, but the source
defaults to 1.0.  For resume `[Machine Learning]` against requirements
`[Machine Learning, Haskell]` (where `haskell` is not in SKILL_MULTIPLIERS),
the code returns 35.9 while the spec's formula gives 52.83. -/
theorem weighted_match_default_cex :
    calculate_weighted_match_score [S ("Machine Learning")]
        [S ("Machine Learning"), S ("Haskell")] = 359/10 ∧
    calculateWeightedMatchSpec [S ("Machine Learning")]
        [S ("Machine Learning"), S ("Haskell")] = 5283/100 ∧
    (359/10 : ℚ) ≠ 5283/100 := by
  have hwML : weightOf 1 (S ("Machine Learning")) = 112/10 := by
    have h : multLookup (normalize_skill (S ("Machine Learning"))) 1 = 12/100 := rfl
    rw [weightOf, h]; norm_num
  have hwH : weightOf 1 (S ("Haskell")) = 20 := by
    have h : multLookup (normalize_skill (S ("Haskell"))) 1 = 1 := rfl
    rw [weightOf, h]; norm_num
  have hwML0 : weightOf 0 (S ("Machine Learning")) = 112/10 := by
    have h : multLookup (normalize_skill (S ("Machine Learning"))) 0 = 12/100 := rfl
    rw [weightOf, h]; norm_num
  have hwH0 : weightOf 0 (S ("Haskell")) = 10 := by
    have h : multLookup (normalize_skill (S ("Haskell"))) 0 = 0 := rfl
    rw [weightOf, h]; norm_num
  have hfilter : List.filter
      (fun r => decide (normalize_skill r ∈ List.map normalize_skill [S ("Machine Learning")]))
      [S ("Machine Learning"), S ("Haskell")] = [S ("Machine Learning")] := by decide
  refine ⟨?_, ?_, by norm_num⟩
  · simp only [calculate_weighted_match_score]
    rw [if_neg (by decide : ¬([S ("Machine Learning"), S ("Haskell")] = ([] : List Str)))]
    rw [wmStep_foldl, hfilter]
    simp only [List.map_cons, List.map_nil, List.sum_cons, List.sum_nil]
    rw [hwML, hwH]
    norm_num [round2, pyRound, Int.fract]
  · simp only [calculateWeightedMatchSpec]
    rw [if_neg (by decide : ¬([S ("Machine Learning"), S ("Haskell")] = ([] : List Str)))]
    rw [hfilter]
    simp only [List.map_cons, List.map_nil, List.sum_cons, List.sum_nil]
    rw [hwML0, hwH0]
    norm_num [round2, pyRound, Int.fract]

/-- C2 (amended): every required skill's weight is `(1 + premium) × 10` with
the premium looked up in SKILL_MULTIPLIERS and DEFAULTING TO 1.0 when absent,
and the returned percentage is matched-weight / total-weight × 100 (rounded
to two decimals) — the source's loop agrees with the spec-style
sum-over-weights formulation with that corrected default. -/
theorem weighted_match_amended (resume_skills job_requirements : List Str) :
    calculate_weighted_match_score resume_skills job_requirements
      = calculateWeightedMatchAmended resume_skills job_requirements := by
  unfold calculate_weighted_match_score calculateWeightedMatchAmended
  by_cases h : job_requirements = []
  · simp [h]
  · simp only [if_neg h]
    rw [wmStep_foldl]
    simp only [zero_add]

/-- C5: self-match completeness — for every non-empty skill list `X`,
calculate_match(X, X) returns percentage 100, the matched list `X` itself
(original casing and order), and an empty missing list. -/
theorem calculate_match_self (X : List Str) (hX : X ≠ []) :
    calculate_match X X = (100, X, []) := by
  simp only [calculate_match, if_neg hX]
  have hmatched :
      (dedupS (X.map normalize_skill)).filter
        (fun s => decide (s ∈ dedupS (X.map normalize_skill)))
        = dedupS (X.map normalize_skill) :=
    List.filter_eq_self.mpr (fun s hs => decide_eq_true hs)
  have hmissing :
      (dedupS (X.map normalize_skill)).filter
        (fun s => decide (s ∉ dedupS (X.map normalize_skill))) = [] := by
    rw [List.filter_eq_nil_iff]
    intro a ha
    simp [ha]
  rw [hmatched, hmissing]
  have hlen : ((dedupS (X.map normalize_skill)).length : ℚ) ≠ 0 := by
    have h1 : dedupS (X.map normalize_skill) ≠ [] :=
      dedupS_ne_nil (by simpa using hX)
    have h2 : (dedupS (X.map normalize_skill)).length ≠ 0 := by
      simpa [List.length_eq_zero] using h1
    exact_mod_cast h2
  rw [div_self hlen, one_mul]
  have hcase :
      X.filter (fun s => decide (normalize_skill s ∈ dedupS (X.map normalize_skill))) = X :=
    List.filter_eq_self.mpr (fun s hs =>
      decide_eq_true (mem_dedupS.mpr (List.mem_map_of_mem normalize_skill hs)))
  rw [hcase]
  have hround : round2 (100 : ℚ) = 100 := by
    norm_num [round2, pyRound, Int.fract]
  rw [hround]

/-- C5 witness: a concrete two-skill self-match. -/
theorem calculate_match_self_witness :
    calculate_match [S ("Python"), S ("sql")] [S ("Python"), S ("sql")]
      = (100, [S ("Python"), S ("sql")], []) :=
  calculate_match_self [S ("Python"), S ("sql")] (by decide)

/-- C10: for `None`, non-string, and empty-string job descriptions,
detect_job_role returns the fixed label `Software Engineer`, which is not the
generic fallback `Other Role`. -/
theorem detect_job_role_empty_inputs :
    detect_job_role_py PyInput.pynone = S ("Software Engineer") ∧
    detect_job_role_py (PyInput.pystr []) = S ("Software Engineer") ∧
    detect_job_role_py PyInput.nonstring = S ("Software Engineer") ∧
    S ("Software Engineer") ≠ S ("Other Role") := by
  refine ⟨by decide, by decide, by decide, by decide⟩

/-- The first non-tech phrase group wins as soon as one of its (stripped)
phrases occurs in the text. -/
theorem findPhraseRoleStrip_head (role p : Str) (ps : List Str)
    (rest : List (Str × List Str)) (jl : Str)
    (h : isSubstrB (stripS p) jl = true) :
    findPhraseRoleStrip ((role, p :: ps) :: rest) jl = some role := by
  simp [findPhraseRoleStrip, List.findSome?_cons, List.any_cons, h]

/-- C3: detect_job_role classifies any job description whose normalized text
contains the phrase `digital marketing manager` as `Digital Marketing` — the
non-technical phrase groups run before every technical stage, and the
`Digital Marketing` group's phrase `digital marketing` is a prefix of that
phrase.  Since the result is exactly `Digital Marketing`, no technical role is
ever returned for such a text, whatever else (e.g. `analytics`, `platform`)
it contains. -/
theorem detect_job_role_digital_marketing (t : Str)
    (h : isSubstrB (S ("digital marketing manager")) (jobLowerOf t) = true) :
    detect_job_role t = S ("Digital Marketing") := by
  have ht : t ≠ [] := by
    intro he
    subst he
    have hempty : jobLowerOf ([] : Str) = [] := by decide
    rw [hempty] at h
    exact absurd h (by decide)
  have hsub : isSubstrB (S ("digital marketing")) (jobLowerOf t) = true :=
    isSubstrB_of_prefix_substr (by decide) h
  have hfirst : findPhraseRoleStrip exact_phrases_non_tech (jobLowerOf t)
      = some (S ("Digital Marketing")) := by
    have hstrip : isSubstrB (stripS (S ("digital marketing"))) (jobLowerOf t) = true := by
      rw [show stripS (S ("digital marketing")) = S ("digital marketing") from by decide]
      exact hsub
    exact findPhraseRoleStrip_head _ _ _ _ _ hstrip
  unfold detect_job_role
  rw [if_neg ht]
  simp only [hfirst]

/-- C3 witness: a concrete digital-marketing description that also mentions
`analytics` and `platform`. -/
theorem detect_job_role_digital_marketing_witness :
    detect_job_role
      (S ("We are hiring a Digital Marketing Manager with analytics and platform experience"))
      = S ("Digital Marketing") :=
  detect_job_role_digital_marketing _ (by decide)

/-- C4 counterexample: the claim says that when the detected role is not a
recognized TECHNICAL role no default skills are merged, but role_defaults
also contains non-technical roles.  For `digital marketing manager wanted`
the detected role is `Digital Marketing` (a non-technical role, classified by
the non-tech phrase stage), yet the returned requirements contain
`Email Marketing`, which literal extraction over the full vocabulary does not
find in that text — it comes from the `Digital Marketing` default list. -/
theorem extract_job_requirements_nontech_defaults_cex :
    detect_job_role (S ("digital marketing manager wanted")) = S ("Digital Marketing") ∧
    (lookupL exact_phrases_non_tech (S ("Digital Marketing"))).isSome = true ∧
    S ("Email Marketing") ∈ extract_job_requirements (S ("digital marketing manager wanted")) ∧
    S ("Email Marketing") ∉
      extract_skills (S ("digital marketing manager wanted")) (some ALL_JOB_SKILLS) := by
  refine ⟨by decide, by decide, by decide, by decide⟩

/-- C4 (amended): for every job description of at least 10 stripped characters
whose detected role is NOT a key of the role_defaults table (a table that
contains technical AND creative roles), extract_job_requirements merges no
default list: it returns exactly the sorted literally-extracted skills, and
when none were extracted the detected role name itself is the single
placeholder skill unless the role is the generic fallback `Other Role`. -/
theorem extract_job_requirements_unrecognized_role (jd : Str)
    (hlen : 10 ≤ (stripS jd).length)
    (hrole : lookupL role_defaults (detect_job_role jd) = none) :
    extract_job_requirements jd =
      if literal_extracted_skills jd = [] ∧ detect_job_role jd ≠ S ("Other Role")
      then sortStr [detect_job_role jd]
      else sortStr (literal_extracted_skills jd) := by
  have hguard : ¬ (jd = [] ∨ (stripS jd).length < 10) := by
    push_neg
    refine ⟨?_, by omega⟩
    intro he
    subst he
    simp [stripS] at hlen
  unfold extract_job_requirements
  rw [if_neg hguard]
  simp only [hrole, Option.isSome_none, Bool.false_eq_true, false_and, if_false]
  simp

/-- C4 witness: a description with no recognizable phrases, keywords or
title anchors is classified `Other Role` (not a role_defaults key) and yields
exactly the (here empty) literally-extracted skill list. -/
theorem extract_job_requirements_unrecognized_role_witness :
    10 ≤ (stripS (S ("zz qq ww vv pp"))).length ∧
    lookupL role_defaults (detect_job_role (S ("zz qq ww vv pp"))) = none ∧
    extract_job_requirements (S ("zz qq ww vv pp")) =
      (if literal_extracted_skills (S ("zz qq ww vv pp")) = [] ∧
          detect_job_role (S ("zz qq ww vv pp")) ≠ S ("Other Role")
       then sortStr [detect_job_role (S ("zz qq ww vv pp"))]
       else sortStr (literal_extracted_skills (S ("zz qq ww vv pp")))) :=
  ⟨by decide, by decide,
   extract_job_requirements_unrecognized_role (S ("zz qq ww vv pp"))
     (by decide) (by decide)⟩

/-- C6: floor invariant of predict_salary — for every experience value
(including negative and arbitrarily large integers), every skill list, every
education string and every industry string, the predicted bounds satisfy
min ≥ 35, avg ≥ 50 and max ≥ 70: each bound is `round(max(floor, value), 0)`
and `pyRound` never drops below the floor of its argument. -/
theorem predict_salary_floors (e : ℤ) (skills : List Str) (edu ind : Str) :
    35 ≤ (predict_salary e skills edu ind).lo ∧
    50 ≤ (predict_salary e skills edu ind).av ∧
    70 ≤ (predict_salary e skills edu ind).hi := by
  have key : ∀ (a : ℤ) (q : ℚ), (a : ℚ) ≤ round0 (max (a : ℚ) q) :=
    fun a q => round0_floor_le (le_max_left _ _)
  unfold predict_salary
  refine ⟨?_, ?_, ?_⟩
  · exact_mod_cast key 35 _
  · exact_mod_cast key 50 _
  · exact_mod_cast key 70 _

/-- C7 helper: the length category scores between 0 and 15. -/
theorem qualityLength_bounds (t : Str) :
    0 ≤ (qualityLength t).1 ∧ (qualityLength t).1 ≤ 15 := by
  unfold qualityLength
  try simp only []
  split
  · simp [QUALITY_RUBRIC_length]
  · split
    · norm_num
    · split <;> norm_num

/-- C7 helper: the skill-count category scores between 0 and 15. -/
theorem qualitySkills_bounds (l : List Str) :
    0 ≤ (qualitySkills l).1 ∧ (qualitySkills l).1 ≤ 15 := by
  unfold qualitySkills
  try simp only []
  split
  · simp [QUALITY_RUBRIC_skills_count]
  · split
    · norm_num
    · split <;> norm_num

/-- C7 helper: the experience category scores between 0 and 20. -/
theorem qualityExperience_bounds (e : ℤ) :
    0 ≤ (qualityExperience e).1 ∧ (qualityExperience e).1 ≤ 20 := by
  unfold qualityExperience
  try simp only []
  split
  · simp [QUALITY_RUBRIC_experience]
  · split
    · norm_num
    · split <;> norm_num

/-- C7 helper: the education category scores between 0 and 15. -/
theorem qualityEducation_bounds (edu : Str) :
    0 ≤ (qualityEducation edu).1 ∧ (qualityEducation edu).1 ≤ 15 := by
  unfold qualityEducation
  try simp only []
  split
  · norm_num
  · split
    · norm_num
    · split <;> norm_num

/-- C7 helper: the contact category scores between 0 and 10. -/
theorem qualityContact_bounds (t : Str) :
    0 ≤ (qualityContact t).1 ∧ (qualityContact t).1 ≤ 10 := by
  unfold qualityContact
  try simp only []
  split
  · norm_num
  · split
    · norm_num
    · split <;> norm_num

/-- C7 helper: the sections category scores between 0 and 10. -/
theorem qualitySections_bounds (t : Str) :
    0 ≤ (qualitySections t).1 ∧ (qualitySections t).1 ≤ 10 := by
  unfold qualitySections
  try simp only []
  split
  · norm_num
  · split <;> norm_num

/-- C7 helper: the action-verb category scores between 0 and 10. -/
theorem qualityActionVerbs_bounds (t : Str) :
    0 ≤ (qualityActionVerbs t).1 ∧ (qualityActionVerbs t).1 ≤ 10 := by
  unfold qualityActionVerbs
  try simp only []
  split
  · norm_num
  · split
    · norm_num
    · split <;> norm_num

/-- C7 helper: the quantification category scores between 0 and 5. -/
theorem qualityMetrics_bounds (t : Str) :
    0 ≤ (qualityMetrics t).1 ∧ (qualityMetrics t).1 ≤ 5 := by
  unfold qualityMetrics
  try simp only []
  split
  · norm_num
  · split <;> norm_num

/-- C7: boundary safety of analyze_resume_quality — for every text, skill
list, experience value and education value, the returned score lies in
[0, 100]: the empty-text branch returns 0, and otherwise the eight category
scores are each non-negative and the total is capped at 100 before the final
one-decimal rounding, which preserves both bounds. -/
theorem analyze_resume_quality_bounds (text : Str) (skills : List Str)
    (e : ℤ) (edu : Str) :
    0 ≤ (analyze_resume_quality text skills e edu).1 ∧
    (analyze_resume_quality text skills e edu).1 ≤ 100 := by
  unfold analyze_resume_quality
  split
  · norm_num
  · simp only []
    obtain ⟨a1, b1⟩ := qualityLength_bounds text
    obtain ⟨a2, b2⟩ := qualitySkills_bounds skills
    obtain ⟨a3, b3⟩ := qualityExperience_bounds e
    obtain ⟨a4, b4⟩ := qualityEducation_bounds edu
    obtain ⟨a5, b5⟩ := qualityContact_bounds text
    obtain ⟨a6, b6⟩ := qualitySections_bounds text
    obtain ⟨a7, b7⟩ := qualityActionVerbs_bounds text
    obtain ⟨a8, b8⟩ := qualityMetrics_bounds text
    constructor
    · apply round1_nonneg
      apply le_min (by norm_num)
      linarith
    · apply round1_le_100
      exact min_le_left _ _

set_option maxRecDepth 100000 in
/-- C8 counterexample: a 250-word text.  The claim says reading time is
rounded UP (so 250 words → 2 minutes), but get_readability_stats rounds to
the NEAREST minute: it reports 1 minute, although ⌈250/200⌉ = 2. -/
theorem readability_250_words_cex :
    (get_readability_stats
        (List.intercalate (S (" ")) (List.replicate 250 (S ("word"))))).word_count = 250 ∧
    (get_readability_stats
        (List.intercalate (S (" ")) (List.replicate 250 (S ("word"))))).reading_time_mins = 1 ∧
    ⌈(250 : ℚ) / 200⌉ = 2 := by
  have hne : List.intercalate (S (" ")) (List.replicate 250 (S ("word"))) ≠ [] := by decide
  have hwc : (splitWs (List.intercalate (S (" ")) (List.replicate 250 (S ("word"))))).length
      = 250 := by decide
  refine ⟨?_, ?_, by norm_num [Int.ceil_eq_iff]⟩
  · simp only [get_readability_stats, if_neg hne]
    exact hwc
  · simp only [get_readability_stats, if_neg hne, hwc]
    norm_num [pyRound, Int.fract]

/-- C8 (amended): for every non-empty text, the reported reading time is
`max(1, round(word_count / 200))` with Python's round-to-nearest — so it is
at least 1 minute and within half a minute of word_count / 200 (a 250-word
text reports 1 minute, not the 2 that rounding up would give). -/
theorem readability_reading_time (text : Str) (h : text ≠ []) :
    1 ≤ (get_readability_stats text).reading_time_mins ∧
    ((get_readability_stats text).word_count : ℚ) / 200 - 1/2
      ≤ ((get_readability_stats text).reading_time_mins : ℚ) ∧
    ((get_readability_stats text).reading_time_mins : ℚ)
      ≤ max 1 (((get_readability_stats text).word_count : ℚ) / 200 + 1/2) := by
  simp only [get_readability_stats, if_neg h]
  refine ⟨le_max_left _ _, ?_, ?_⟩
  · have h1 := pyRound_sub_le (((splitWs text).length : ℚ) / 200)
    have h2 : (pyRound (((splitWs text).length : ℚ) / 200) : ℚ)
        ≤ ((max 1 (pyRound (((splitWs text).length : ℚ) / 200)) : ℤ) : ℚ) := by
      exact_mod_cast le_max_right _ _
    linarith
  · have h1 := pyRound_le_add (((splitWs text).length : ℚ) / 200)
    have h2 : ((max 1 (pyRound (((splitWs text).length : ℚ) / 200)) : ℤ) : ℚ)
        = max 1 ((pyRound (((splitWs text).length : ℚ) / 200) : ℤ) : ℚ) := by
      push_cast
      rfl
    rw [h2]
    exact max_le_max (le_refl 1) h1

/-- C8 witness: a two-word text reports one minute. -/
theorem readability_reading_time_witness :
    1 ≤ (get_readability_stats (S ("hello world"))).reading_time_mins ∧
    ((get_readability_stats (S ("hello world"))).word_count : ℚ) / 200 - 1/2
      ≤ ((get_readability_stats (S ("hello world"))).reading_time_mins : ℚ) ∧
    ((get_readability_stats (S ("hello world"))).reading_time_mins : ℚ)
      ≤ max 1 (((get_readability_stats (S ("hello world"))).word_count : ℚ) / 200 + 1/2) :=
  readability_reading_time (S ("hello world")) (by decide)

/-- C9: batch robustness — the ranking has exactly one row per document, and
every document whose extracted text starts with the `Error` sentinel
contributes the all-zero row (rather than being omitted). -/
theorem batch_ranking_rows (custom allI js : List Str) (docs : List (Str × Str)) :
    (batch_ranking custom allI js docs).length = docs.length ∧
    ∀ i (h1 : i < docs.length) (h2 : i < (batch_ranking custom allI js docs).length),
      isPrefixB (S ("Error")) (docs.get ⟨i, h1⟩).2 = true →
      (batch_ranking custom allI js docs).get ⟨i, h2⟩ = zeroRow (docs.get ⟨i, h1⟩).1 := by
  constructor
  · simp [batch_ranking]
  · intro i h1 h2 herr
    simp only [batch_ranking, List.get_map]
    rw [batchRow, if_pos herr]

/-- C9 witness: a two-document batch whose first document failed extraction;
its row is the zero row, and the row count is 2. -/
theorem batch_ranking_rows_witness :
    (batch_ranking [S ("Python")] [S ("Python")] [S ("Python")]
        [(S ("a"), S ("Error: no pages")), (S ("b"), S ("hi"))]).length = 2 ∧
    (batch_ranking [S ("Python")] [S ("Python")] [S ("Python")]
        [(S ("a"), S ("Error: no pages")), (S ("b"), S ("hi"))]).get ⟨0, by decide⟩
      = zeroRow (S ("a")) := by
  have h := batch_ranking_rows [S ("Python")] [S ("Python")] [S ("Python")]
    [(S ("a"), S ("Error: no pages")), (S ("b"), S ("hi"))]
  exact ⟨h.1, h.2 0 (by decide) (by decide) (by decide)⟩

end ResumeAnalyzer
